import Mathlib

set_option maxHeartbeats 1000000

/-
Verification of the identity-derivation, bundle-assembly and donor-merge core of
the dcc-spinnaker-client upload client (src/spinnaker.py), as a shallow embedding:
Python dictionaries become association lists, the hierarchical metadata bundles
become explicit structures, and the fallible merge (which lets library exceptions
propagate) returns Option or Except values.
-/

namespace Spinnaker

/-- Python list.remove: drop the first element equal to the given value.  The Python
version raises ValueError when the value is absent; the merge engine only calls it
with an element of the list, so the model is total and leaves the list unchanged
in that unreachable case. -/
def removeFirst [DecidableEq α] : List α → α → List α
  | [], _ => []
  | y :: ys, x => if y = x then ys else y :: removeFirst ys x

/-- Index and value of the last element satisfying p.  This mirrors the scan loops of
mergeDonors, which walk the whole saved list and keep overwriting a local variable
with each matching element, so the last match wins. -/
def findLastIdx (p : α → Bool) : List α → Option (Nat × α)
  | [] => none
  | x :: xs =>
    match findLastIdx p xs with
    | some (i, y) => some (i + 1, y)
    | none => if p x then some (0, x) else none

/-- Python dict assignment d[k] = v on an insertion-ordered dictionary modelled as an
association list: replace the value in place when the key exists, append otherwise. -/
def setAssoc [BEq κ] : List (κ × α) → κ → α → List (κ × α)
  | [], k, v => [(k, v)]
  | (k0, v0) :: rest, k, v =>
    if k0 == k then (k0, v) :: rest else (k0, v0) :: setAssoc rest k v

/-- The statement uuid_to_timestamp[key].append(...) of mergeDonors: extend the
timestamp history stored under the given donor key. -/
def appendTs : List (String × List String) → String → List String → List (String × List String)
  | [], _, _ => []
  | (k, l) :: rest, key, ts =>
    if k == key then (k, l ++ ts) :: rest else (k, l) :: appendTs rest key ts

/-- Python max over a list of strings (code-point lexicographic, as Python compares
str values).  Python raises on an empty list; mergeDonors only applies it to
timestamp histories, which always start nonempty. -/
def listMax : List String → String
  | [] => ""
  | x :: xs => xs.foldl max x

/- ### Model of the external semver library (semver.compare)

The client compares workflow_version strings with semver.compare, which parses both
arguments and raises ValueError on a malformed version.  The model parses plain
MAJOR.MINOR.PATCH numeric versions and signals a malformed version with none; the
callers propagate that failure. -/

/-- Split a character list at every dot, keeping empty segments. -/
def splitDots (cur : List Char) : List Char → List (List Char)
  | [] => [cur.reverse]
  | c :: cs =>
    if c = Char.ofNat 46 then cur.reverse :: splitDots [] cs else splitDots (c :: cur) cs

/-- Parse a nonempty all-digit character list as a decimal Nat. -/
def parseNatDigits (cs : List Char) : Option Nat :=
  if cs ≠ [] ∧ cs.all Char.isDigit then
    some (cs.foldl (fun a c => a * 10 + (c.toNat - 48)) 0)
  else none

/-- Modelled from the external semver library: parse MAJOR.MINOR.PATCH into a numeric
triple, none when malformed. -/
def semverParse (s : String) : Option (Nat × Nat × Nat) :=
  match splitDots [] s.data with
  | [a, b, c] =>
    match parseNatDigits a, parseNatDigits b, parseNatDigits c with
    | some x, some y, some z => some (x, y, z)
    | _, _, _ => none
  | _ => none

/-- Numeric comparison of parsed versions, returning -1, 0 or 1 as semver.compare does. -/
def verCmp (x y : Nat × Nat × Nat) : Int :=
  if x.1 < y.1 then -1 else if y.1 < x.1 then 1
  else if x.2.1 < y.2.1 then -1 else if y.2.1 < x.2.1 then 1
  else if x.2.2 < y.2.2 then -1 else if y.2.2 < x.2.2 then 1 else 0

/-- Modelled from the external semver library: semver.compare, none when either
argument is malformed (the library raises ValueError there). -/
def semverCompare (a b : String) : Option Int :=
  match semverParse a, semverParse b with
  | some x, some y => some (verCmp x y)
  | _, _ => none

/- ### Model of the external dateutil parser used for analysis timestamps

mergeDonors breaks version ties by parsing both timestamp strings with
dateutil.parser.parse and comparing the resulting datetimes.  For the ISO-8601
timestamps the client produces, comparing the sequence of numeric fields
(year, month, day, hour, minute, second) lexicographically matches datetime
comparison; the model extracts the maximal digit groups of the string and
compares those sequences. -/

/-- Lexicographic three-way comparison of Nat lists. -/
def natListCompare : List Nat → List Nat → Ordering
  | [], [] => Ordering.eq
  | [], _ :: _ => Ordering.lt
  | _ :: _, [] => Ordering.gt
  | a :: as, b :: bs =>
    if a < b then Ordering.lt else if b < a then Ordering.gt else natListCompare as bs

/-- Maximal runs of digits in a character list, as decimal numbers. -/
def digitGroupsAux (cur : Option Nat) : List Char → List Nat
  | [] =>
    match cur with
    | some n => [n]
    | none => []
  | c :: cs =>
    if c.isDigit then digitGroupsAux (some (cur.getD 0 * 10 + (c.toNat - 48))) cs
    else
      match cur with
      | some n => n :: digitGroupsAux none cs
      | none => digitGroupsAux none cs

/-- Maximal runs of digits in a string, as decimal numbers. -/
def digitGroups (s : String) : List Nat :=
  digitGroupsAux none s.data

/-- Modelled from the external dateutil library: the parsed datetime of the first
string is strictly earlier than that of the second. -/
def tsLt (a b : String) : Bool :=
  natListCompare (digitGroups a) (digitGroups b) == Ordering.lt

/- ### Identity derivation (generateUuid5, spinnaker.py lines 237-248) -/

/-- The Python 2 encode to ascii with errors ignored: non-ascii characters are dropped. -/
def asciiIgnore (s : String) : String :=
  String.mk (s.data.filter (fun c => c.toNat ≤ 127))

/-- Python str.lower on the ascii strings produced by asciiIgnore. -/
def pyLower (s : String) : String :=
  String.mk (s.data.map Char.toLower)

/-- The uuid.NAMESPACE_URL constant passed as default namespace. -/
def NAMESPACE_URL : String := "6ba7b811-9dad-11d1-80b4-00c04fd430c8"

/-- Modelled from the Python standard library: uuid.uuid5 is a SHA-1 based name hash
of (namespace, name).  It is modelled as an ideal collision-free name hash, injective
in the name for a fixed namespace, which is the property the client relies on. -/
def uuid5 (ns name : String) : String :=
  ns ++ name

/-- generateUuid5 of spinnaker.py: encode every component to ascii dropping non-ascii
characters, concatenate with no separator, lowercase, and hash under NAMESPACE_URL. -/
def generateUuid5 (nameComponents : List String) : String :=
  uuid5 NAMESPACE_URL (pyLower (String.join (nameComponents.map asciiIgnore)))

/-- The name string fed to the uuid5 hash for a component tuple. -/
def normalizedName (nameComponents : List String) : String :=
  pyLower (String.join (nameComponents.map asciiIgnore))

/- ### Data model of the hierarchical bundles (metadata.json trees)

The dictionaries built by getWorkflowObjects and consumed by mergeDonors become
structures.  An analysis entry may or may not carry a timestamp key, hence
Option String; the donor-level timestamp is always present (getWorkflowObjects
stamps it and mergeDonors reads it unconditionally). -/

structure FileInfo where
  file_type : String
  file_path : String
  file_size : Nat
  file_sha : String
deriving DecidableEq

structure Analysis where
  workflow_name : String
  workflow_version : String
  analysis_type : String
  bundle_uuid : String
  timestamp : Option String
  workflow_outputs : List FileInfo
deriving DecidableEq

structure Sample where
  submitter_sample_id : String
  sample_uuid : String
  analysis : List Analysis
deriving DecidableEq

structure Specimen where
  submitter_specimen_id : String
  submitter_specimen_type : String
  submitter_experimental_design : String
  specimen_uuid : String
  samples : List Sample
deriving DecidableEq

structure Bundle where
  program : String
  project : String
  center_name : String
  submitter_donor_id : String
  donor_uuid : String
  submitter_donor_primary_site : String
  timestamp : String
  schema_version : String
  specimen : List Specimen
deriving DecidableEq

/- ### Flat input records as Python dictionaries (setUuids / getDataObj)

A row dictionary maps a field name to a string value or to Python None (an xlsx
empty cell or a short tsv row produce None).  An absent key is absent from the
association list, and reading it raises KeyError. -/

abbrev PyDict := List (String × Option String)

/-- getValueFromObject of spinnaker.py: the value stored under the key (which may be
None) when present, the empty string otherwise. -/
def getValueFromObject (x : PyDict) (y : String) : Option String :=
  match x.lookup y with
  | some v => v
  | none => some ""

/-- The business-key tuples of setUuids, in the fixed model order donor, specimen,
sample.  The Python dict iteration order over these three entries is unspecified;
every observable result proved below is the same under any order. -/
def uuidKeyFields : List (String × List String) :=
  [("donor_uuid", ["center_name", "submitter_donor_id"]),
   ("specimen_uuid", ["center_name", "submitter_donor_id", "submitter_specimen_id"]),
   ("sample_uuid",
    ["center_name", "submitter_donor_id", "submitter_specimen_id", "submitter_sample_id"])]

/-- The field scan of one uuid derivation in setUuids: an absent key raises KeyError
(error), a key present with value None makes setUuids log and return early (none),
otherwise the collected value list (some). -/
def collectKeyList (d : PyDict) : List String → Except String (Option (List String))
  | [] => Except.ok (some [])
  | f :: fs =>
    match d.lookup f with
    | none => Except.error ("KeyError: " ++ f)
    | some none => Except.ok none
    | some (some v) =>
      match collectKeyList d fs with
      | Except.error e => Except.error e
      | Except.ok none => Except.ok none
      | Except.ok (some vs) => Except.ok (some (v :: vs))

/-- The loop of setUuids over the three uuid tuples, threading the mutated record.
A true flag reports the early return taken when a required field held None. -/
def setUuidsLoop (d : PyDict) : List (String × List String) → Except String (PyDict × Bool)
  | [] => Except.ok (d, false)
  | (uuidName, fields) :: rest =>
    match collectKeyList d fields with
    | Except.error e => Except.error e
    | Except.ok none => Except.ok (d, true)
    | Except.ok (some keyList) =>
      setUuidsLoop (setAssoc d uuidName (some (generateUuid5 keyList))) rest

/-- The trailing workflow_uuid block of setUuids, which must follow the sample_uuid
assignment because it reads it back from the record. -/
def setUuidsWorkflowPart (d : PyDict) : Except String PyDict :=
  match collectKeyList d ["sample_uuid", "workflow_name", "workflow_version"] with
  | Except.error e => Except.error e
  | Except.ok none => Except.ok d
  | Except.ok (some keyList) =>
    Except.ok (setAssoc d "workflow_uuid" (some (generateUuid5 keyList)))

/-- setUuids of spinnaker.py (lines 251-289).  The Python function mutates its
argument and always returns None; the model returns the final record state, and an
error value for an uncaught KeyError on an absent field. -/
def setUuids (dataObj : PyDict) : Except String PyDict :=
  match setUuidsLoop dataObj uuidKeyFields with
  | Except.error e => Except.error e
  | Except.ok (d, true) => Except.ok d
  | Except.ok (d, false) => setUuidsWorkflowPart d

/- ### Schema validation (modelled collaborator) -/

/-- Modelled from the spec: the structural JSON-Schema constraints the external
jsonschema collaborator enforces, reduced to named string properties of which some
are required.  The concrete schema files of the repository are not under src. -/
structure Schema where
  properties : List String
  required : List String

/-- Modelled from the spec: validateObjAgainstJsonSchema delegates to the jsonschema
collaborator, which accepts the object only when every required property is present
with a string (non-null) value, and never raises past this boundary. -/
def validateObjAgainstJsonSchema (obj : PyDict) (schema : Schema) : Bool :=
  schema.required.all (fun r =>
    match obj.lookup r with
    | some (some _) => true
    | _ => false)

/-- Modelled from the spec: the flat input schema (schemas/input_metadata.json, not
under src) names the descriptive fields and derived uuid fields as properties and
requires the six business keys. -/
def inputMetadataSchema : Schema where
  properties :=
    ["program", "project", "center_name", "submitter_donor_id",
     "submitter_donor_primary_site", "submitter_specimen_id", "submitter_specimen_type",
     "submitter_experimental_design", "submitter_sample_id", "analysis_type",
     "workflow_name", "workflow_version", "file_type", "file_path",
     "donor_uuid", "specimen_uuid", "sample_uuid"]
  required :=
    ["center_name", "submitter_donor_id", "submitter_specimen_id",
     "submitter_sample_id", "workflow_name", "workflow_version"]

/-- The dataObj loop of getDataObj: rebuild the record from the schema property
names (values resolve through getValueFromObject), then copy workflow_uuid from the
record when present. -/
def buildDataObj (dict2 : PyDict) (schema : Schema) : PyDict :=
  match dict2.lookup "workflow_uuid" with
  | some v =>
    setAssoc (schema.properties.map (fun p => (p, getValueFromObject dict2 p)))
      "workflow_uuid" v
  | none => schema.properties.map (fun p => (p, getValueFromObject dict2 p))

/-- getDataObj of spinnaker.py (lines 292-315): derive the uuids (ignoring the
early-return flag, as the Python caller ignores the None return), rebuild the record
from the schema property names, copy workflow_uuid when present, and validate.
Validation failure yields ok none (the record is dropped); a KeyError from setUuids
propagates as an error. -/
def getDataObj (dict : PyDict) (schema : Schema) : Except String (Option PyDict) :=
  match setUuids dict with
  | Except.error e => Except.error e
  | Except.ok dict2 =>
    Except.ok
      (if validateObjAgainstJsonSchema (buildDataObj dict2 schema) schema
        then some (buildDataObj dict2 schema) else none)

/-- The per-record loop of main over one input batch: records for which getDataObj
returns None are skipped, the others are collected in order; an uncaught exception
aborts the batch. -/
def processBatch (schema : Schema) : List PyDict → Except String (List PyDict)
  | [] => Except.ok []
  | d :: rest =>
    match getDataObj d schema with
    | Except.error e => Except.error e
    | Except.ok none => processBatch schema rest
    | Except.ok (some obj) =>
      match processBatch schema rest with
      | Except.error e => Except.error e
      | Except.ok objs => Except.ok (obj :: objs)

/- ### Bundle assembly (getWorkflowObjects, spinnaker.py lines 391-465)

The validated flat records carry exactly the schema properties as strings (the
optional primary site resolves to the empty string only through
getValueFromObject, so it stays an Option here).  File size and checksum come from
the filesystem; the model abstracts that access as two pure oracle functions, the
narrow collaborator interface of the spec. -/

structure FlatRecord where
  program : String
  project : String
  center_name : String
  submitter_donor_id : String
  donor_uuid : String
  submitter_donor_primary_site : Option String
  submitter_specimen_id : String
  submitter_specimen_type : String
  submitter_experimental_design : String
  specimen_uuid : String
  submitter_sample_id : String
  sample_uuid : String
  workflow_name : String
  workflow_version : String
  analysis_type : String
  workflow_uuid : String
  file_type : String
  file_path : String
deriving DecidableEq

/-- The schema_version constant stamped on every assembled bundle. -/
def schema_version : String := "0.0.3"

/-- The fresh bundle skeleton getWorkflowObjects builds from the first record seen
with a workflow_uuid: one specimen holding one sample holding one analysis with an
empty output list; the bundle timestamp is the creation instant (the now argument
models getNow().isoformat()), and assembled analyses carry no timestamp key. -/
def skeletonBundle (metaObj : FlatRecord) (now : String) : Bundle where
  program := metaObj.program
  project := metaObj.project
  center_name := metaObj.center_name
  submitter_donor_id := metaObj.submitter_donor_id
  donor_uuid := metaObj.donor_uuid
  submitter_donor_primary_site := metaObj.submitter_donor_primary_site.getD ""
  timestamp := now
  schema_version := schema_version
  specimen :=
    [{ submitter_specimen_id := metaObj.submitter_specimen_id
       submitter_specimen_type := metaObj.submitter_specimen_type
       submitter_experimental_design := metaObj.submitter_experimental_design
       specimen_uuid := metaObj.specimen_uuid
       samples :=
         [{ submitter_sample_id := metaObj.submitter_sample_id
            sample_uuid := metaObj.sample_uuid
            analysis :=
              [{ workflow_name := metaObj.workflow_name
                 workflow_version := metaObj.workflow_version
                 analysis_type := metaObj.analysis_type
                 bundle_uuid := metaObj.workflow_uuid
                 timestamp := none
                 workflow_outputs := [] }] }] }]

/-- The file descriptor appended for one record, with size and checksum from the
filesystem oracle. -/
def mkFileInfo (fsize : String → Nat) (fsha : String → String) (metaObj : FlatRecord) :
    FileInfo where
  file_type := metaObj.file_type
  file_path := metaObj.file_path
  file_size := fsize metaObj.file_path
  file_sha := fsha metaObj.file_path

/-- Append one file descriptor to the workflow_outputs of the first analysis of the
first sample of the first specimen, the specimen[0].samples[0].analysis[0] access
of the Python code (always well-formed on skeleton-shaped bundles). -/
def addFileToBundle (b : Bundle) (fi : FileInfo) : Bundle :=
  { b with
    specimen := b.specimen.modifyHead (fun sp =>
      { sp with samples := sp.samples.modifyHead (fun sa =>
        { sa with analysis := sa.analysis.modifyHead (fun an =>
          { an with workflow_outputs := an.workflow_outputs ++ [fi] }) }) }) }

/-- Update the value stored under the first occurrence of a key. -/
def updateAssoc [BEq κ] : List (κ × α) → κ → (α → α) → List (κ × α)
  | [], _, _ => []
  | (k0, v0) :: rest, k, f =>
    if k0 == k then (k0, f v0) :: rest else (k0, v0) :: updateAssoc rest k f

/-- getWorkflowObjects of spinnaker.py: fold the flat records into an
insertion-ordered map keyed by workflow_uuid, creating the skeleton for the first
record of each workflow and appending one file descriptor per record. -/
def getWorkflowObjects (fsize : String → Nat) (fsha : String → String) (now : String) :
    List FlatRecord → List (String × Bundle) → List (String × Bundle)
  | [], commonObjMap => commonObjMap
  | metaObj :: rest, commonObjMap =>
    let m1 :=
      if (commonObjMap.lookup metaObj.workflow_uuid).isSome then commonObjMap
      else commonObjMap ++ [(metaObj.workflow_uuid, skeletonBundle metaObj now)]
    let m2 := updateAssoc m1 metaObj.workflow_uuid
      (fun b => addFileToBundle b (mkFileInfo fsize fsha metaObj))
    getWorkflowObjects fsize fsha now rest m2

/- ### Donor merge engine (mergeDonors, spinnaker.py lines 734-845) -/

/-- The timestamp history entry recorded when an analysis entry carrying a timestamp
is accepted. -/
def tsRec (bundle : Analysis) : List String :=
  match bundle.timestamp with
  | some t => [t]
  | none => []

/-- The conflict-resolution block of mergeDonors (lines 801-837): analysisObj is the
saved entry, bundle the incoming one.  A strictly newer incoming version replaces
the saved entry (list.remove then append); on exactly equal versions a strictly
later parsed incoming timestamp replaces, provided both entries carry timestamps;
otherwise the saved list is unchanged.  A malformed version makes semver.compare
raise, modelled as none. -/
def resolveConflict (savedList : List Analysis) (analysisObj bundle : Analysis) :
    Option (List Analysis × List String) :=
  match semverCompare analysisObj.workflow_version bundle.workflow_version with
  | none => none
  | some c =>
    if c = -1 then
      some (removeFirst savedList analysisObj ++ [bundle], tsRec bundle)
    else if c = 0 then
      match bundle.timestamp, analysisObj.timestamp with
      | some newTs, some savedTs =>
        if tsLt savedTs newTs then
          some (removeFirst savedList analysisObj ++ [bundle], [newTs])
        else some (savedList, [])
      | _, _ => some (savedList, [])
    else some (savedList, [])

/-- The analysis loop of mergeDonors under one matched sample: each incoming analysis
entry is appended when its analysis_type is unseen (recording its timestamp when it
carries one), otherwise resolved against the last saved entry of the same type.
Returns the updated sample and the recorded timestamps in order. -/
def mergeAnalyses (sampleObj : Sample) : List Analysis → Option (Sample × List String)
  | [] => some (sampleObj, [])
  | bundle :: rest =>
    match (sampleObj.analysis.filter
        (fun sb => sb.analysis_type == bundle.analysis_type)).getLast? with
    | none =>
      match mergeAnalyses { sampleObj with analysis := sampleObj.analysis ++ [bundle] } rest with
      | none => none
      | some (s2, rec2) => some (s2, tsRec bundle ++ rec2)
    | some analysisObj =>
      match resolveConflict sampleObj.analysis analysisObj bundle with
      | none => none
      | some (newList, rec1) =>
        match mergeAnalyses { sampleObj with analysis := newList } rest with
        | none => none
        | some (s2, rec2) => some (s2, rec1 ++ rec2)

/-- The sample loop of mergeDonors under one matched specimen: an unseen sample_uuid
appends the whole sample subtree (recording no timestamps), a seen one descends into
the last matching saved sample. -/
def mergeSamples (specObj : Specimen) : List Sample → Option (Specimen × List String)
  | [] => some (specObj, [])
  | sample :: rest =>
    match findLastIdx (fun s => s.sample_uuid == sample.sample_uuid) specObj.samples with
    | none =>
      mergeSamples { specObj with samples := specObj.samples ++ [sample] } rest
    | some (i, sampleObj) =>
      match mergeAnalyses sampleObj sample.analysis with
      | none => none
      | some (s2, rec1) =>
        match mergeSamples { specObj with samples := specObj.samples.set i s2 } rest with
        | none => none
        | some (sp2, rec2) => some (sp2, rec1 ++ rec2)

/-- The specimen loop of mergeDonors over one incoming bundle: an unseen
specimen_uuid appends the whole specimen subtree, a seen one descends into the last
matching saved specimen. -/
def mergeSpecimens (donorObj : Bundle) : List Specimen → Option (Bundle × List String)
  | [] => some (donorObj, [])
  | specimen :: rest =>
    match findLastIdx (fun s => s.specimen_uuid == specimen.specimen_uuid) donorObj.specimen with
    | none =>
      mergeSpecimens { donorObj with specimen := donorObj.specimen ++ [specimen] } rest
    | some (i, specObj) =>
      match mergeSamples specObj specimen.samples with
      | none => none
      | some (s2, rec1) =>
        match mergeSpecimens { donorObj with specimen := donorObj.specimen.set i s2 } rest with
        | none => none
        | some (d2, rec2) => some (d2, rec1 ++ rec2)

/-- The main loop of mergeDonors over the input bundles: a new donor_uuid inserts the
bundle verbatim and starts its timestamp history with the bundle timestamp; an
existing donor merges level by level, extending the history with the timestamps the
analysis level recorded. -/
def mergeLoop (donorMapping : List (String × Bundle)) (uuidToTimestamp : List (String × List String)) :
    List Bundle → Option (List (String × Bundle) × List (String × List String))
  | [] => some (donorMapping, uuidToTimestamp)
  | metaObj :: rest =>
    match donorMapping.lookup metaObj.donor_uuid with
    | none =>
      mergeLoop (donorMapping ++ [(metaObj.donor_uuid, metaObj)])
        (uuidToTimestamp ++ [(metaObj.donor_uuid, [metaObj.timestamp])]) rest
    | some donorObj =>
      match mergeSpecimens donorObj metaObj.specimen with
      | none => none
      | some (d2, rec) =>
        mergeLoop (setAssoc donorMapping metaObj.donor_uuid d2)
          (appendTs uuidToTimestamp metaObj.donor_uuid rec) rest

/-- Rewrite the donor-level timestamp of the entry stored under the given key. -/
def setDonorTimestamp : List (String × Bundle) → String → String → List (String × Bundle)
  | [], _, _ => []
  | (k, b) :: rest, key, ts =>
    if k == key then (k, { b with timestamp := ts }) :: rest
    else (k, b) :: setDonorTimestamp rest key ts

/-- The final rollup of mergeDonors (lines 839-843): every donor timestamp is
rewritten to the maximum of its history. -/
def rollupTimestamps (donorMapping : List (String × Bundle)) :
    List (String × List String) → List (String × Bundle)
  | [] => donorMapping
  | (i, tsList) :: rest =>
    rollupTimestamps (setDonorTimestamp donorMapping i (listMax tsList)) rest

/-- mergeDonors of spinnaker.py: the per-donor merge of the bundle sequence, none
when a version comparison raised (the exception propagates out of the function, so
no mapping is produced). -/
def mergeDonors (metadataObjs : List Bundle) : Option (List (String × Bundle)) :=
  match mergeLoop [] [] metadataObjs with
  | none => none
  | some (donorMapping, uuidToTimestamp) =>
    some (rollupTimestamps donorMapping uuidToTimestamp)

/-- Look a donor up in a merge result; none when the merge aborted or the donor is
absent. -/
def mergedLookup (result : Option (List (String × Bundle))) (k : String) : Option Bundle :=
  match result with
  | none => none
  | some m => m.lookup k

/-- The nested analysis lists of one merged donor, specimen by specimen and sample by
sample: the observable on which the conflict-resolution claims are stated. -/
def donorAnalyses (result : Option (List (String × Bundle))) (k : String) :
    Option (List (List (List Analysis))) :=
  (mergedLookup result k).map
    (fun b => b.specimen.map (fun sp => sp.samples.map (fun sa => sa.analysis)))

/- ### Scenario builders and concrete fixtures used in statements below -/

/-- An assembler-shaped bundle: the donor fields of D with exactly one specimen
(the fields of S), one sample (the fields of M) and the given analysis list. -/
def scenarioBundle (D : Bundle) (S : Specimen) (M : Sample) (anas : List Analysis) : Bundle :=
  { D with specimen := [{ S with samples := [{ M with analysis := anas }] }] }

/-- A concrete file descriptor fixture. -/
def outFixture : FileInfo where
  file_type := "bam"
  file_path := "f.bam"
  file_size := 3
  file_sha := "sha1$aa"

/-- A concrete analysis-entry fixture. -/
def analysisFixture (wname wver bu : String) (ts : Option String) : Analysis where
  workflow_name := wname
  workflow_version := wver
  analysis_type := "alignment"
  bundle_uuid := bu
  timestamp := ts
  workflow_outputs := [outFixture]

/-- A concrete sample fixture (analysis list filled in by scenarioBundle). -/
def sampleFixture : Sample where
  submitter_sample_id := "SA1"
  sample_uuid := "sample-1"
  analysis := []

/-- A concrete specimen fixture. -/
def specimenFixture : Specimen where
  submitter_specimen_id := "SP1"
  submitter_specimen_type := "normal"
  submitter_experimental_design := "WGS"
  specimen_uuid := "spec-1"
  samples := []

/-- A concrete donor-level fixture. -/
def donorFixture (ts : String) : Bundle where
  program := "prog"
  project := "proj"
  center_name := "center"
  submitter_donor_id := "D1"
  donor_uuid := "donor-1"
  submitter_donor_primary_site := ""
  timestamp := ts
  schema_version := "0.0.3"
  specimen := []

/-- Equality of all donor-level fields except the timestamp (and except the
specimen tree, which the merge legitimately extends). -/
def donorFieldsEq (a b : Bundle) : Prop :=
  a.program = b.program ∧ a.project = b.project ∧ a.center_name = b.center_name ∧
    a.submitter_donor_id = b.submitter_donor_id ∧ a.donor_uuid = b.donor_uuid ∧
    a.submitter_donor_primary_site = b.submitter_donor_primary_site ∧
    a.schema_version = b.schema_version

/-- A record whose center_name column is entirely absent from the key set. -/
def recordMissingKey : PyDict := [("submitter_donor_id", some "d")]

/-- A record whose center_name field is present but holds Python None. -/
def recordNullField : PyDict :=
  [("center_name", none), ("submitter_donor_id", some "D"),
   ("submitter_specimen_id", some "SP"), ("submitter_sample_id", some "SA"),
   ("workflow_name", some "W"), ("workflow_version", some "1.0.0")]

/-- A complete valid input record. -/
def recordComplete : PyDict :=
  [("center_name", some "C"), ("submitter_donor_id", some "D"),
   ("submitter_specimen_id", some "SP"), ("submitter_sample_id", some "SA"),
   ("workflow_name", some "W"), ("workflow_version", some "1.0.0"),
   ("program", some "P"), ("project", some "PR"), ("analysis_type", some "A"),
   ("file_type", some "bam"), ("file_path", some "f.bam"),
   ("submitter_specimen_type", some "t"), ("submitter_experimental_design", some "e")]

/- ### Spec-shaped description of the assembler output (compared against
getWorkflowObjects below) -/

/-- The file descriptors of all records carrying the given workflow identity, in
input row order. -/
def outputsFor (fsize : String → Nat) (fsha : String → String) (rs : List FlatRecord)
    (u : String) : List FileInfo :=
  (rs.filter (fun r => r.workflow_uuid == u)).map (mkFileInfo fsize fsha)

/-- Append file descriptors one at a time, as the assembler loop does. -/
def withOutputs (b : Bundle) (fis : List FileInfo) : Bundle :=
  fis.foldl addFileToBundle b

/-- The bundle the spec describes for one workflow identity: the skeleton fields of
one record with exactly one specimen, one sample and one analysis, holding the
given workflow_outputs list. -/
def skeletonWithOutputs (metaObj : FlatRecord) (now : String) (outs : List FileInfo) :
    Bundle where
  program := metaObj.program
  project := metaObj.project
  center_name := metaObj.center_name
  submitter_donor_id := metaObj.submitter_donor_id
  donor_uuid := metaObj.donor_uuid
  submitter_donor_primary_site := metaObj.submitter_donor_primary_site.getD ""
  timestamp := now
  schema_version := schema_version
  specimen :=
    [{ submitter_specimen_id := metaObj.submitter_specimen_id
       submitter_specimen_type := metaObj.submitter_specimen_type
       submitter_experimental_design := metaObj.submitter_experimental_design
       specimen_uuid := metaObj.specimen_uuid
       samples :=
         [{ submitter_sample_id := metaObj.submitter_sample_id
            sample_uuid := metaObj.sample_uuid
            analysis :=
              [{ workflow_name := metaObj.workflow_name
                 workflow_version := metaObj.workflow_version
                 analysis_type := metaObj.analysis_type
                 bundle_uuid := metaObj.workflow_uuid
                 timestamp := none
                 workflow_outputs := outs }] }] }]

/-- The sequence of first occurrences of keys not yet seen, in input order. -/
def newKeys : List String → List String → List String
  | _, [] => []
  | seen, x :: xs => if x ∈ seen then newKeys seen xs else x :: newKeys (seen ++ [x]) xs

/-- A concrete flat input record fixture for the assembler. -/
def flatRecordFixture : FlatRecord where
  program := "prog"
  project := "proj"
  center_name := "center"
  submitter_donor_id := "D1"
  donor_uuid := "donor-1"
  submitter_donor_primary_site := none
  submitter_specimen_id := "SP1"
  submitter_specimen_type := "normal"
  submitter_experimental_design := "WGS"
  specimen_uuid := "spec-1"
  submitter_sample_id := "SA1"
  sample_uuid := "sample-1"
  workflow_name := "wf"
  workflow_version := "1.0.0"
  analysis_type := "alignment"
  workflow_uuid := "wu-1"
  file_type := "bam"
  file_path := "f.bam"

/- ### Association-list lemmas -/

theorem beq_false_of_ne {a b : String} (h : a ≠ b) : (a == b) = false :=
  beq_eq_false_iff_ne.mpr h

theorem lookup_cons_self {α} (k : String) (v : α) (rest : List (String × α)) :
    ((k, v) :: rest).lookup k = some v := by
  simp [List.lookup]

theorem lookup_cons_ne {α} {u k : String} (v : α) (rest : List (String × α)) (h : u ≠ k) :
    ((k, v) :: rest).lookup u = rest.lookup u := by
  simp [List.lookup, beq_false_of_ne h]

theorem lookup_append_of_some {α} {l : List (String × α)} {u : String} {w : α}
    (h : l.lookup u = some w) (l2 : List (String × α)) : (l ++ l2).lookup u = some w := by
  induction l with
  | nil => simp [List.lookup] at h
  | cons p rest ih =>
    obtain ⟨k0, v0⟩ := p
    by_cases hk : u = k0
    · subst hk
      rw [lookup_cons_self] at h
      rw [List.cons_append, lookup_cons_self]
      exact h
    · rw [lookup_cons_ne _ _ hk] at h
      rw [List.cons_append, lookup_cons_ne _ _ hk]
      exact ih h

theorem lookup_append_of_none {α} {l : List (String × α)} {u : String}
    (h : l.lookup u = none) (l2 : List (String × α)) : (l ++ l2).lookup u = l2.lookup u := by
  induction l with
  | nil => simp
  | cons p rest ih =>
    obtain ⟨k0, v0⟩ := p
    by_cases hk : u = k0
    · subst hk
      rw [lookup_cons_self] at h
      exact absurd h (by simp)
    · rw [lookup_cons_ne _ _ hk] at h
      rw [List.cons_append, lookup_cons_ne _ _ hk]
      exact ih h

theorem setAssoc_cons_self {α} (k : String) (v0 v : α) (rest : List (String × α)) :
    setAssoc ((k, v0) :: rest) k v = (k, v) :: rest := by
  simp [setAssoc]

theorem setAssoc_cons_ne {α} {k0 k : String} (v0 v : α) (rest : List (String × α))
    (h : k0 ≠ k) : setAssoc ((k0, v0) :: rest) k v = (k0, v0) :: setAssoc rest k v := by
  simp [setAssoc, beq_false_of_ne h]

theorem lookup_setAssoc_self {α} (l : List (String × α)) (k : String) (v : α) :
    (setAssoc l k v).lookup k = some v := by
  induction l with
  | nil => simp [setAssoc, List.lookup]
  | cons p rest ih =>
    obtain ⟨k0, v0⟩ := p
    by_cases hk : k0 = k
    · subst hk
      rw [setAssoc_cons_self, lookup_cons_self]
    · rw [setAssoc_cons_ne _ _ _ hk, lookup_cons_ne _ _ (fun hh => hk hh.symm)]
      exact ih

theorem lookup_setAssoc_ne {α} (l : List (String × α)) {k u : String} (v : α) (h : u ≠ k) :
    (setAssoc l k v).lookup u = l.lookup u := by
  induction l with
  | nil => simp [setAssoc, List.lookup, beq_false_of_ne h]
  | cons p rest ih =>
    obtain ⟨k0, v0⟩ := p
    by_cases hk : k0 = k
    · subst hk
      rw [setAssoc_cons_self, lookup_cons_ne _ _ h, lookup_cons_ne _ _ h]
    · by_cases hu : u = k0
      · subst hu
        rw [setAssoc_cons_ne _ _ _ hk, lookup_cons_self, lookup_cons_self]
      · rw [setAssoc_cons_ne _ _ _ hk, lookup_cons_ne _ _ hu, lookup_cons_ne _ _ hu]
        exact ih

theorem mapfst_setAssoc {α} {l : List (String × α)} {k : String} (v : α)
    (h : (l.lookup k).isSome) : (setAssoc l k v).map Prod.fst = l.map Prod.fst := by
  induction l with
  | nil => simp [List.lookup] at h
  | cons p rest ih =>
    obtain ⟨k0, v0⟩ := p
    by_cases hk : k0 = k
    · subst hk
      rw [setAssoc_cons_self]
      simp
    · rw [lookup_cons_ne _ _ (fun hh => hk hh.symm)] at h
      rw [setAssoc_cons_ne _ _ _ hk]
      simp only [List.map_cons]
      rw [ih h]

theorem appendTs_cons_self (k : String) (v0 ts : List String)
    (rest : List (String × List String)) :
    appendTs ((k, v0) :: rest) k ts = (k, v0 ++ ts) :: rest := by
  simp [appendTs]

theorem appendTs_cons_ne {k0 k : String} (v0 ts : List String)
    (rest : List (String × List String)) (h : k0 ≠ k) :
    appendTs ((k0, v0) :: rest) k ts = (k0, v0) :: appendTs rest k ts := by
  simp [appendTs, beq_false_of_ne h]

theorem lookup_appendTs_self (l : List (String × List String)) (k : String) (ts : List String) :
    (appendTs l k ts).lookup k = (l.lookup k).map (fun h => h ++ ts) := by
  induction l with
  | nil => simp [appendTs, List.lookup]
  | cons p rest ih =>
    obtain ⟨k0, v0⟩ := p
    by_cases hk : k0 = k
    · subst hk
      rw [appendTs_cons_self, lookup_cons_self, lookup_cons_self]
      rfl
    · rw [appendTs_cons_ne _ _ _ hk, lookup_cons_ne _ _ (fun hh => hk hh.symm),
        lookup_cons_ne _ _ (fun hh => hk hh.symm)]
      exact ih

theorem lookup_appendTs_ne (l : List (String × List String)) {k u : String} (ts : List String)
    (h : u ≠ k) : (appendTs l k ts).lookup u = l.lookup u := by
  induction l with
  | nil => simp [appendTs]
  | cons p rest ih =>
    obtain ⟨k0, v0⟩ := p
    by_cases hk : k0 = k
    · subst hk
      rw [appendTs_cons_self, lookup_cons_ne _ _ h, lookup_cons_ne _ _ h]
    · by_cases hu : u = k0
      · subst hu
        rw [appendTs_cons_ne _ _ _ hk, lookup_cons_self, lookup_cons_self]
      · rw [appendTs_cons_ne _ _ _ hk, lookup_cons_ne _ _ hu, lookup_cons_ne _ _ hu]
        exact ih

theorem mapfst_appendTs (l : List (String × List String)) (k : String) (ts : List String) :
    (appendTs l k ts).map Prod.fst = l.map Prod.fst := by
  induction l with
  | nil => simp [appendTs]
  | cons p rest ih =>
    obtain ⟨k0, v0⟩ := p
    by_cases hk : k0 = k
    · subst hk
      rw [appendTs_cons_self]
      simp
    · rw [appendTs_cons_ne _ _ _ hk]
      simp only [List.map_cons]
      rw [ih]

theorem setDonorTimestamp_cons_self (k : String) (b : Bundle) (ts : String)
    (rest : List (String × Bundle)) :
    setDonorTimestamp ((k, b) :: rest) k ts = (k, { b with timestamp := ts }) :: rest := by
  simp [setDonorTimestamp]

theorem setDonorTimestamp_cons_ne {k0 k : String} (b : Bundle) (ts : String)
    (rest : List (String × Bundle)) (h : k0 ≠ k) :
    setDonorTimestamp ((k0, b) :: rest) k ts = (k0, b) :: setDonorTimestamp rest k ts := by
  simp [setDonorTimestamp, beq_false_of_ne h]

theorem lookup_setDonorTimestamp_self (l : List (String × Bundle)) (k : String) (ts : String) :
    (setDonorTimestamp l k ts).lookup k =
      (l.lookup k).map (fun b => { b with timestamp := ts }) := by
  induction l with
  | nil => simp [setDonorTimestamp, List.lookup]
  | cons p rest ih =>
    obtain ⟨k0, v0⟩ := p
    by_cases hk : k0 = k
    · subst hk
      rw [setDonorTimestamp_cons_self, lookup_cons_self, lookup_cons_self]
      rfl
    · rw [setDonorTimestamp_cons_ne _ _ _ hk, lookup_cons_ne _ _ (fun hh => hk hh.symm),
        lookup_cons_ne _ _ (fun hh => hk hh.symm)]
      exact ih

theorem lookup_setDonorTimestamp_ne (l : List (String × Bundle)) {k u : String} (ts : String)
    (h : u ≠ k) : (setDonorTimestamp l k ts).lookup u = l.lookup u := by
  induction l with
  | nil => simp [setDonorTimestamp]
  | cons p rest ih =>
    obtain ⟨k0, v0⟩ := p
    by_cases hk : k0 = k
    · subst hk
      rw [setDonorTimestamp_cons_self, lookup_cons_ne _ _ h, lookup_cons_ne _ _ h]
    · by_cases hu : u = k0
      · subst hu
        rw [setDonorTimestamp_cons_ne _ _ _ hk, lookup_cons_self, lookup_cons_self]
      · rw [setDonorTimestamp_cons_ne _ _ _ hk, lookup_cons_ne _ _ hu, lookup_cons_ne _ _ hu]
        exact ih

theorem mapfst_setDonorTimestamp (l : List (String × Bundle)) (k : String) (ts : String) :
    (setDonorTimestamp l k ts).map Prod.fst = l.map Prod.fst := by
  induction l with
  | nil => simp [setDonorTimestamp]
  | cons p rest ih =>
    obtain ⟨k0, v0⟩ := p
    by_cases hk : k0 = k
    · subst hk
      rw [setDonorTimestamp_cons_self]
      simp
    · rw [setDonorTimestamp_cons_ne _ _ _ hk]
      simp only [List.map_cons]
      rw [ih]

theorem lookup_eq_none_iff_notmem {α} (l : List (String × α)) (u : String) :
    l.lookup u = none ↔ u ∉ l.map Prod.fst := by
  induction l with
  | nil => simp
  | cons p rest ih =>
    obtain ⟨k0, v0⟩ := p
    by_cases hk : u = k0
    · subst hk
      rw [lookup_cons_self]
      simp
    · rw [lookup_cons_ne _ _ hk]
      simp only [List.map_cons, List.mem_cons]
      constructor
      · intro hnone hmem
        rcases hmem with hmem | hmem
        · exact hk hmem
        · exact (ih.mp hnone) hmem
      · intro hmem
        exact ih.mpr (fun hm => hmem (Or.inr hm))

theorem updateAssoc_cons_self {α} (k : String) (v0 : α) (f : α → α)
    (rest : List (String × α)) :
    updateAssoc ((k, v0) :: rest) k f = (k, f v0) :: rest := by
  simp [updateAssoc]

theorem updateAssoc_cons_ne {α} {k0 k : String} (v0 : α) (f : α → α)
    (rest : List (String × α)) (h : k0 ≠ k) :
    updateAssoc ((k0, v0) :: rest) k f = (k0, v0) :: updateAssoc rest k f := by
  simp [updateAssoc, beq_false_of_ne h]

theorem lookup_updateAssoc_self {α} (l : List (String × α)) (k : String) (f : α → α) :
    (updateAssoc l k f).lookup k = (l.lookup k).map f := by
  induction l with
  | nil => simp [updateAssoc, List.lookup]
  | cons p rest ih =>
    obtain ⟨k0, v0⟩ := p
    by_cases hk : k0 = k
    · subst hk
      rw [updateAssoc_cons_self, lookup_cons_self, lookup_cons_self]
      rfl
    · rw [updateAssoc_cons_ne _ _ _ hk, lookup_cons_ne _ _ (fun hh => hk hh.symm),
        lookup_cons_ne _ _ (fun hh => hk hh.symm)]
      exact ih

theorem lookup_updateAssoc_ne {α} (l : List (String × α)) {k u : String} (f : α → α)
    (h : u ≠ k) : (updateAssoc l k f).lookup u = l.lookup u := by
  induction l with
  | nil => simp [updateAssoc]
  | cons p rest ih =>
    obtain ⟨k0, v0⟩ := p
    by_cases hk : k0 = k
    · subst hk
      rw [updateAssoc_cons_self, lookup_cons_ne _ _ h, lookup_cons_ne _ _ h]
    · by_cases hu : u = k0
      · subst hu
        rw [updateAssoc_cons_ne _ _ _ hk, lookup_cons_self, lookup_cons_self]
      · rw [updateAssoc_cons_ne _ _ _ hk, lookup_cons_ne _ _ hu, lookup_cons_ne _ _ hu]
        exact ih

theorem mapfst_updateAssoc {α} (l : List (String × α)) (k : String) (f : α → α) :
    (updateAssoc l k f).map Prod.fst = l.map Prod.fst := by
  induction l with
  | nil => simp [updateAssoc]
  | cons p rest ih =>
    obtain ⟨k0, v0⟩ := p
    by_cases hk : k0 = k
    · subst hk
      rw [updateAssoc_cons_self]
      simp
    · rw [updateAssoc_cons_ne _ _ _ hk]
      simp only [List.map_cons]
      rw [ih]

/- ### Evaluation lemmas for the merge on assembler-shaped bundles -/

theorem findLastIdx_singleton_true {p : α → Bool} {x : α} (h : p x = true) :
    findLastIdx p [x] = some (0, x) := by
  simp [findLastIdx, h]

theorem findLastIdx_singleton_false {p : α → Bool} {x : α} (h : p x = false) :
    findLastIdx p [x] = none := by
  simp [findLastIdx, h]

theorem mergeAnalyses_nil (sampleObj : Sample) : mergeAnalyses sampleObj [] = some (sampleObj, []) :=
  rfl

theorem mergeAnalyses_fresh (sampleObj : Sample) (bundle : Analysis)
    (h : (sampleObj.analysis.filter
      (fun sb => sb.analysis_type == bundle.analysis_type)).getLast? = none) :
    mergeAnalyses sampleObj [bundle] =
      some ({ sampleObj with analysis := sampleObj.analysis ++ [bundle] }, tsRec bundle) := by
  simp [mergeAnalyses, h]

theorem mergeAnalyses_conflict (sampleObj : Sample) (analysisObj bundle : Analysis)
    (h : (sampleObj.analysis.filter
      (fun sb => sb.analysis_type == bundle.analysis_type)).getLast? = some analysisObj) :
    mergeAnalyses sampleObj [bundle] =
      (resolveConflict sampleObj.analysis analysisObj bundle).map
        (fun p => ({ sampleObj with analysis := p.1 }, p.2)) := by
  rcases hr : resolveConflict sampleObj.analysis analysisObj bundle with _ | ⟨newList, rec1⟩
  · rw [mergeAnalyses, h]
    simp only [hr]
    rfl
  · rw [mergeAnalyses, h]
    simp only [hr, mergeAnalyses, Option.map_some']
    simp

theorem mergeSamples_single_match (specObj : Specimen) (m0 sample : Sample)
    (hs : specObj.samples = [m0]) (hu : m0.sample_uuid = sample.sample_uuid) :
    mergeSamples specObj [sample] =
      (mergeAnalyses m0 sample.analysis).map
        (fun p => ({ specObj with samples := [p.1] }, p.2)) := by
  rcases hr : mergeAnalyses m0 sample.analysis with _ | ⟨m2, rec1⟩
  · rw [mergeSamples, hs, findLastIdx_singleton_true (by simp [hu])]
    simp only [hr]
    rfl
  · rw [mergeSamples, hs, findLastIdx_singleton_true (by simp [hu])]
    simp only [hr, mergeSamples, Option.map_some']
    simp

theorem mergeSpecimens_single_match (donorObj : Bundle) (s0 specimen : Specimen)
    (hs : donorObj.specimen = [s0]) (hu : s0.specimen_uuid = specimen.specimen_uuid) :
    mergeSpecimens donorObj [specimen] =
      (mergeSamples s0 specimen.samples).map
        (fun p => ({ donorObj with specimen := [p.1] }, p.2)) := by
  rcases hr : mergeSamples s0 specimen.samples with _ | ⟨s2, rec1⟩
  · rw [mergeSpecimens, hs, findLastIdx_singleton_true (by simp [hu])]
    simp only [hr]
    rfl
  · rw [mergeSpecimens, hs, findLastIdx_singleton_true (by simp [hu])]
    simp only [hr, mergeSpecimens, Option.map_some']
    simp

theorem mergeLoop_new (dm : List (String × Bundle)) (uts : List (String × List String))
    (metaObj : Bundle) (rest : List Bundle) (h : dm.lookup metaObj.donor_uuid = none) :
    mergeLoop dm uts (metaObj :: rest) =
      mergeLoop (dm ++ [(metaObj.donor_uuid, metaObj)])
        (uts ++ [(metaObj.donor_uuid, [metaObj.timestamp])]) rest := by
  rw [mergeLoop, h]

theorem mergeLoop_existing (dm : List (String × Bundle)) (uts : List (String × List String))
    (metaObj donorObj : Bundle) (rest : List Bundle)
    (h : dm.lookup metaObj.donor_uuid = some donorObj) :
    mergeLoop dm uts (metaObj :: rest) =
      match mergeSpecimens donorObj metaObj.specimen with
      | none => none
      | some (d2, rec) =>
        mergeLoop (setAssoc dm metaObj.donor_uuid d2)
          (appendTs uts metaObj.donor_uuid rec) rest := by
  rw [mergeLoop, h]

/-- Merging one assembler-shaped bundle (one specimen, one sample) into a mapping
holding a single donor whose tree has one specimen and one sample reduces to the
analysis-level merge. -/
theorem mergeLoop_cons_into_single (k : String) (D : Bundle) (S : Specimen) (M : Sample)
    (hist : List String) (b : Bundle) (s : Specimen) (m : Sample) (rest : List Bundle)
    (hD : D.specimen = [S]) (hS : S.samples = [M])
    (hb : b.specimen = [s]) (hs : s.samples = [m])
    (hk : b.donor_uuid = k)
    (hsp : S.specimen_uuid = s.specimen_uuid)
    (hsa : M.sample_uuid = m.sample_uuid) :
    mergeLoop [(k, D)] [(k, hist)] (b :: rest) =
      match mergeAnalyses M m.analysis with
      | none => none
      | some (M2, rec) =>
        mergeLoop [(k, { D with specimen := [{ S with samples := [M2] }] })]
          [(k, hist ++ rec)] rest := by
  have hlk : ([(k, D)] : List (String × Bundle)).lookup b.donor_uuid = some D := by
    rw [hk, lookup_cons_self]
  rw [mergeLoop_existing _ _ _ _ _ hlk, hb,
    mergeSpecimens_single_match D S s hD hsp, hs,
    mergeSamples_single_match S M m hS hsa]
  rcases hma : mergeAnalyses M m.analysis with _ | ⟨M2, rec⟩
  · simp only [hma]
    rfl
  · simp only [hma, Option.map_some']
    rw [hk]
    rw [setAssoc_cons_self, appendTs_cons_self]

theorem rollup_single (k : String) (D : Bundle) (hist : List String) :
    rollupTimestamps [(k, D)] [(k, hist)] = [(k, { D with timestamp := listMax hist })] := by
  rw [rollupTimestamps, setDonorTimestamp_cons_self, rollupTimestamps]

/- ### Comparison lemmas -/

theorem natListCompare_lt_iff_gt :
    ∀ x y : List Nat, natListCompare x y = Ordering.lt ↔ natListCompare y x = Ordering.gt := by
  intro x
  induction x with
  | nil =>
    intro y
    cases y <;> simp [natListCompare]
  | cons a as ih =>
    intro y
    cases y with
    | nil => simp [natListCompare]
    | cons b bs =>
      by_cases hab : a < b
      · have hba : ¬ b < a := by omega
        simp [natListCompare, hab, hba]
      · by_cases hba : b < a
        · simp [natListCompare, hab, hba]
        · simp [natListCompare, hab, hba, ih bs]

theorem tsLt_eq_true_iff {a b : String} :
    tsLt a b = true ↔ natListCompare (digitGroups a) (digitGroups b) = Ordering.lt := by
  unfold tsLt
  cases hnc : natListCompare (digitGroups a) (digitGroups b) <;> decide

theorem tsLt_asymm {a b : String} (h : tsLt a b = true) : tsLt b a = false := by
  have h1 := tsLt_eq_true_iff.mp h
  have h2 := (natListCompare_lt_iff_gt (digitGroups a) (digitGroups b)).mp h1
  unfold tsLt
  rw [h2]
  rfl

theorem verCmp_self (x : Nat × Nat × Nat) : verCmp x x = 0 := by
  simp [verCmp]

theorem semverCompare_self {v : String} (h : (semverParse v).isSome) :
    semverCompare v v = some 0 := by
  obtain ⟨x, hx⟩ := Option.isSome_iff_exists.mp h
  simp [semverCompare, hx, verCmp_self]

theorem semverCompare_none_left {a : String} (b : String) (h : semverParse a = none) :
    semverCompare a b = none := by
  rw [semverCompare, h]

theorem semverCompare_none_right (a : String) {b : String} (h : semverParse b = none) :
    semverCompare a b = none := by
  rw [semverCompare, h]
  rcases semverParse a with _ | x <;> rfl

/- ### Conflict resolution on a single saved entry -/

theorem removeFirst_self [DecidableEq α] (x : α) (l : List α) :
    removeFirst (x :: l) x = l := by
  simp [removeFirst]

theorem resolveConflict_single_newer (a1 a2 : Analysis)
    (h : semverCompare a1.workflow_version a2.workflow_version = some (-1)) :
    resolveConflict [a1] a1 a2 = some ([a2], tsRec a2) := by
  rw [resolveConflict, h]
  simp [removeFirst_self]

theorem resolveConflict_single_older (a1 a2 : Analysis)
    (h : semverCompare a1.workflow_version a2.workflow_version = some 1) :
    resolveConflict [a1] a1 a2 = some ([a1], []) := by
  rw [resolveConflict, h]
  norm_num

theorem resolveConflict_single_tie_later (a1 a2 : Analysis) (T1 T2 : String)
    (h : semverCompare a1.workflow_version a2.workflow_version = some 0)
    (h1 : a1.timestamp = some T1) (h2 : a2.timestamp = some T2) (hlt : tsLt T1 T2 = true) :
    resolveConflict [a1] a1 a2 = some ([a2], [T2]) := by
  rw [resolveConflict, h]
  simp [h1, h2, hlt, removeFirst_self]

theorem resolveConflict_single_tie_notlater (a1 a2 : Analysis) (T1 T2 : String)
    (h : semverCompare a1.workflow_version a2.workflow_version = some 0)
    (h1 : a1.timestamp = some T1) (h2 : a2.timestamp = some T2) (hlt : tsLt T1 T2 = false) :
    resolveConflict [a1] a1 a2 = some ([a1], []) := by
  rw [resolveConflict, h]
  simp [h1, h2, hlt]

theorem resolveConflict_single_tie_missing (a1 a2 : Analysis)
    (h : semverCompare a1.workflow_version a2.workflow_version = some 0)
    (hmiss : a1.timestamp = none ∨ a2.timestamp = none) :
    resolveConflict [a1] a1 a2 = some ([a1], []) := by
  rw [resolveConflict, h]
  rcases hmiss with hm | hm
  · rcases ht2 : a2.timestamp with _ | t2 <;> simp [hm, ht2]
  · simp [hm]

theorem resolveConflict_single_cases (a1 a2 : Analysis) (c : Int)
    (h : semverCompare a1.workflow_version a2.workflow_version = some c) :
    resolveConflict [a1] a1 a2 = some ([a2], tsRec a2) ∨
      resolveConflict [a1] a1 a2 = some ([a1], []) := by
  by_cases hc1 : c = -1
  · subst hc1
    exact Or.inl (resolveConflict_single_newer a1 a2 h)
  · by_cases hc0 : c = 0
    · subst hc0
      rcases h1 : a1.timestamp with _ | T1
      · exact Or.inr (resolveConflict_single_tie_missing a1 a2 h (Or.inl h1))
      · rcases h2 : a2.timestamp with _ | T2
        · exact Or.inr (resolveConflict_single_tie_missing a1 a2 h (Or.inr h2))
        · rcases hlt : tsLt T1 T2 with _ | _
          · exact Or.inr (resolveConflict_single_tie_notlater a1 a2 T1 T2 h h1 h2 hlt)
          · refine Or.inl ?_
            rw [resolveConflict_single_tie_later a1 a2 T1 T2 h h1 h2 hlt, tsRec, h2]
    · refine Or.inr ?_
      rw [resolveConflict, h]
      simp [hc1, hc0]

/- ### The two-bundle conflict scenario -/

/-- Merging two assembler-shaped bundles for the same donor, specimen and sample
reduces to the analysis-level merge of the incoming analysis list into the saved
sample, followed by the timestamp rollup over the recorded history. -/
theorem mergeDonors_two_single (b1 b2 : Bundle) (s1 s2 : Specimen) (m1 m2 : Sample)
    (hb1 : b1.specimen = [s1]) (hs1 : s1.samples = [m1])
    (hb2 : b2.specimen = [s2]) (hs2 : s2.samples = [m2])
    (hd : b2.donor_uuid = b1.donor_uuid)
    (hsp : s1.specimen_uuid = s2.specimen_uuid)
    (hsa : m1.sample_uuid = m2.sample_uuid) :
    mergeDonors [b1, b2] =
      (mergeAnalyses m1 m2.analysis).map (fun p =>
        [(b1.donor_uuid,
          { b1 with
            specimen := [{ s1 with samples := [p.1] }]
            timestamp := listMax (b1.timestamp :: p.2) })]) := by
  rw [mergeDonors, mergeLoop_new [] [] b1 [b2] rfl]
  simp only [List.nil_append]
  rw [mergeLoop_cons_into_single b1.donor_uuid b1 s1 m1 [b1.timestamp] b2 s2 m2 []
    hb1 hs1 hb2 hs2 hd hsp hsa]
  rcases hma : mergeAnalyses m1 m2.analysis with _ | ⟨M2, rec⟩
  · rfl
  · simp only [Option.map_some']
    rw [mergeLoop]
    show some (rollupTimestamps _ _) = _
    rw [rollup_single]
    simp

/-- The merged analysis lists of the two-bundle scenario, given the outcome of the
analysis-level merge. -/
theorem donorAnalyses_two_single (b1 b2 : Bundle) (s1 s2 : Specimen) (m1 m2 : Sample)
    (hb1 : b1.specimen = [s1]) (hs1 : s1.samples = [m1])
    (hb2 : b2.specimen = [s2]) (hs2 : s2.samples = [m2])
    (hd : b2.donor_uuid = b1.donor_uuid)
    (hsp : s1.specimen_uuid = s2.specimen_uuid)
    (hsa : m1.sample_uuid = m2.sample_uuid)
    (L : List Analysis) (rec : List String)
    (hma : mergeAnalyses m1 m2.analysis = some ({ m1 with analysis := L }, rec)) :
    donorAnalyses (mergeDonors [b1, b2]) b1.donor_uuid = some [[L]] := by
  rw [donorAnalyses,
    mergeDonors_two_single b1 b2 s1 s2 m1 m2 hb1 hs1 hb2 hs2 hd hsp hsa, hma]
  simp only [Option.map_some', mergedLookup]
  rw [lookup_cons_self]
  simp

/- ### Lemmas about the identifier derivation -/

/-- The modelled uuid5 hash is injective in the name for a fixed namespace. -/
theorem uuid5_name_inj {ns n1 n2 : String} (h : uuid5 ns n1 = uuid5 ns n2) : n1 = n2 := by
  unfold uuid5 at h
  have hd := congrArg String.data h
  simp only [String.data_append] at hd
  have := List.append_cancel_left hd
  cases n1
  cases n2
  exact congrArg String.mk this

/-- C3.  The claim that any two different component tuples yield different
identifiers is false: two tuples whose lowercased ascii concatenations coincide
collide.  The tuple pair ab,c versus a,bc differs but hashes the same name, and
changing the single component c to C also leaves the identifier unchanged. -/
theorem C3_counterexample :
    generateUuid5 ["ab", "c"] = generateUuid5 ["a", "bc"] ∧
      (["ab", "c"] : List String) ≠ ["a", "bc"] ∧
      generateUuid5 ["x", "C"] = generateUuid5 ["x", "c"] ∧ ("C" : String) ≠ "c" := by
  refine ⟨rfl, by decide, rfl, by decide⟩

/-- C3 (amended).  Identifier derivation is deterministic, and two component tuples
receive the same identifier exactly when their ascii-normalized, lowercased,
separator-free concatenations coincide; in particular tuples with distinct
normalized concatenations receive distinct identifiers. -/
theorem C3_generateUuid5_deterministic_inj :
    (∀ t : List String, generateUuid5 t = generateUuid5 t) ∧
      ∀ t1 t2 : List String,
        generateUuid5 t1 = generateUuid5 t2 ↔ normalizedName t1 = normalizedName t2 := by
  refine ⟨fun _ => rfl, fun t1 t2 => ⟨fun h => uuid5_name_inj h, fun h => ?_⟩⟩
  unfold generateUuid5
  unfold normalizedName at h
  rw [h]

/-- Witness for the amended C3 statement at concrete tuples. -/
theorem C3_witness :
    generateUuid5 ["a", "x"] = generateUuid5 ["b", "x"] ↔
      normalizedName ["a", "x"] = normalizedName ["b", "x"] :=
  C3_generateUuid5_deterministic_inj.2 ["a", "x"] ["b", "x"]

/- ### Claim theorems: conflict resolution -/

/-- The merged analysis lists of the two-bundle scenario built from field sources,
given the conflict-resolution outcome on the single saved entry. -/
theorem scenario_outcome (D1 D2 : Bundle) (S1 S2 : Specimen) (M1 M2 : Sample)
    (a1 a2 : Analysis) (L : List Analysis) (rec : List String)
    (hd : D2.donor_uuid = D1.donor_uuid)
    (hsp : S1.specimen_uuid = S2.specimen_uuid)
    (hsa : M1.sample_uuid = M2.sample_uuid)
    (hat : a1.analysis_type = a2.analysis_type)
    (hres : resolveConflict [a1] a1 a2 = some (L, rec)) :
    donorAnalyses (mergeDonors [scenarioBundle D1 S1 M1 [a1], scenarioBundle D2 S2 M2 [a2]])
      D1.donor_uuid = some [[L]] := by
  have hfilter : ((({ M1 with analysis := [a1] } : Sample).analysis).filter
      (fun sb => sb.analysis_type == a2.analysis_type)).getLast? = some a1 := by
    simp [hat]
  have hma : mergeAnalyses ({ M1 with analysis := [a1] } : Sample) [a2] =
      some ({ M1 with analysis := L }, rec) := by
    rw [mergeAnalyses_conflict _ a1 a2 hfilter]
    show (resolveConflict [a1] a1 a2).map _ = _
    rw [hres]
    rfl
  exact donorAnalyses_two_single (scenarioBundle D1 S1 M1 [a1]) (scenarioBundle D2 S2 M2 [a2])
    ({ S1 with samples := [{ M1 with analysis := [a1] }] })
    ({ S2 with samples := [{ M2 with analysis := [a2] }] })
    ({ M1 with analysis := [a1] }) ({ M2 with analysis := [a2] })
    rfl rfl rfl rfl hd hsp hsa L rec hma

/-- C1.  In the donor merge, an incoming analysis entry of the same analysis_type
as the saved one for the same sample replaces it when its workflow_version is
strictly newer under semantic-version comparison (the saved entry is removed and
the incoming appended in its place), and is discarded when strictly older (the
saved entry is kept); in particular versions 1.0.0 and 2.0.0 processed oldest
first leave only the 2.0.0 entry. -/
theorem C1_version_wins (D1 D2 : Bundle) (S1 S2 : Specimen) (M1 M2 : Sample)
    (a1 a2 : Analysis)
    (hd : D2.donor_uuid = D1.donor_uuid)
    (hsp : S1.specimen_uuid = S2.specimen_uuid)
    (hsa : M1.sample_uuid = M2.sample_uuid)
    (hat : a1.analysis_type = a2.analysis_type) :
    (semverCompare a1.workflow_version a2.workflow_version = some (-1) →
      donorAnalyses (mergeDonors [scenarioBundle D1 S1 M1 [a1], scenarioBundle D2 S2 M2 [a2]])
        D1.donor_uuid = some [[[a2]]]) ∧
    (semverCompare a1.workflow_version a2.workflow_version = some 1 →
      donorAnalyses (mergeDonors [scenarioBundle D1 S1 M1 [a1], scenarioBundle D2 S2 M2 [a2]])
        D1.donor_uuid = some [[[a1]]]) ∧
    (a1.workflow_version = "1.0.0" → a2.workflow_version = "2.0.0" →
      donorAnalyses (mergeDonors [scenarioBundle D1 S1 M1 [a1], scenarioBundle D2 S2 M2 [a2]])
        D1.donor_uuid = some [[[a2]]]) := by
  refine ⟨fun hcmp => ?_, fun hcmp => ?_, fun hv1 hv2 => ?_⟩
  · exact scenario_outcome D1 D2 S1 S2 M1 M2 a1 a2 [a2] (tsRec a2) hd hsp hsa hat
      (resolveConflict_single_newer a1 a2 hcmp)
  · exact scenario_outcome D1 D2 S1 S2 M1 M2 a1 a2 [a1] [] hd hsp hsa hat
      (resolveConflict_single_older a1 a2 hcmp)
  · have hcmp : semverCompare a1.workflow_version a2.workflow_version = some (-1) := by
      rw [hv1, hv2]
      decide
    exact scenario_outcome D1 D2 S1 S2 M1 M2 a1 a2 [a2] (tsRec a2) hd hsp hsa hat
      (resolveConflict_single_newer a1 a2 hcmp)

/-- Witness for C1 at concrete bundles with versions 1.0.0 and 2.0.0. -/
theorem C1_witness :
    ((donorFixture "t2").donor_uuid = (donorFixture "t1").donor_uuid ∧
      specimenFixture.specimen_uuid = specimenFixture.specimen_uuid ∧
      sampleFixture.sample_uuid = sampleFixture.sample_uuid ∧
      (analysisFixture "wf" "1.0.0" "bu1" none).analysis_type =
        (analysisFixture "wf" "2.0.0" "bu2" none).analysis_type) ∧
    ((semverCompare (analysisFixture "wf" "1.0.0" "bu1" none).workflow_version
        (analysisFixture "wf" "2.0.0" "bu2" none).workflow_version = some (-1) →
      donorAnalyses (mergeDonors
        [scenarioBundle (donorFixture "t1") specimenFixture sampleFixture
          [analysisFixture "wf" "1.0.0" "bu1" none],
         scenarioBundle (donorFixture "t2") specimenFixture sampleFixture
          [analysisFixture "wf" "2.0.0" "bu2" none]])
        (donorFixture "t1").donor_uuid = some [[[analysisFixture "wf" "2.0.0" "bu2" none]]]) ∧
    (semverCompare (analysisFixture "wf" "1.0.0" "bu1" none).workflow_version
        (analysisFixture "wf" "2.0.0" "bu2" none).workflow_version = some 1 →
      donorAnalyses (mergeDonors
        [scenarioBundle (donorFixture "t1") specimenFixture sampleFixture
          [analysisFixture "wf" "1.0.0" "bu1" none],
         scenarioBundle (donorFixture "t2") specimenFixture sampleFixture
          [analysisFixture "wf" "2.0.0" "bu2" none]])
        (donorFixture "t1").donor_uuid = some [[[analysisFixture "wf" "1.0.0" "bu1" none]]]) ∧
    ((analysisFixture "wf" "1.0.0" "bu1" none).workflow_version = "1.0.0" →
      (analysisFixture "wf" "2.0.0" "bu2" none).workflow_version = "2.0.0" →
      donorAnalyses (mergeDonors
        [scenarioBundle (donorFixture "t1") specimenFixture sampleFixture
          [analysisFixture "wf" "1.0.0" "bu1" none],
         scenarioBundle (donorFixture "t2") specimenFixture sampleFixture
          [analysisFixture "wf" "2.0.0" "bu2" none]])
        (donorFixture "t1").donor_uuid = some [[[analysisFixture "wf" "2.0.0" "bu2" none]]])) :=
  ⟨⟨rfl, rfl, rfl, rfl⟩,
    C1_version_wins (donorFixture "t1") (donorFixture "t2") specimenFixture specimenFixture
      sampleFixture sampleFixture (analysisFixture "wf" "1.0.0" "bu1" none)
      (analysisFixture "wf" "2.0.0" "bu2" none) rfl rfl rfl rfl⟩


/-- C2.  On exactly equal (and parseable) workflow_version, the tie is broken by
timestamp: a strictly later parsed incoming timestamp replaces the saved entry, an
equal-or-earlier incoming entry is discarded, and if either entry lacks a
timestamp the saved entry is kept; for parsed timestamps T1 earlier than T2 the
merged result retains the T2 entry in either processing order. -/
theorem C2_timestamp_tiebreak (D1 D2 : Bundle) (S1 S2 : Specimen) (M1 M2 : Sample)
    (a1 a2 : Analysis)
    (hd : D2.donor_uuid = D1.donor_uuid)
    (hsp : S1.specimen_uuid = S2.specimen_uuid)
    (hsa : M1.sample_uuid = M2.sample_uuid)
    (hat : a1.analysis_type = a2.analysis_type)
    (hv : a1.workflow_version = a2.workflow_version)
    (hparse : (semverParse a1.workflow_version).isSome) :
    (∀ T1 T2, a1.timestamp = some T1 → a2.timestamp = some T2 → tsLt T1 T2 = true →
      donorAnalyses (mergeDonors [scenarioBundle D1 S1 M1 [a1], scenarioBundle D2 S2 M2 [a2]])
        D1.donor_uuid = some [[[a2]]] ∧
      donorAnalyses (mergeDonors [scenarioBundle D2 S2 M2 [a2], scenarioBundle D1 S1 M1 [a1]])
        D1.donor_uuid = some [[[a2]]]) ∧
    ((a1.timestamp = none ∨ a2.timestamp = none) →
      donorAnalyses (mergeDonors [scenarioBundle D1 S1 M1 [a1], scenarioBundle D2 S2 M2 [a2]])
        D1.donor_uuid = some [[[a1]]]) ∧
    (∀ T1 T2, a1.timestamp = some T1 → a2.timestamp = some T2 → tsLt T1 T2 = false →
      donorAnalyses (mergeDonors [scenarioBundle D1 S1 M1 [a1], scenarioBundle D2 S2 M2 [a2]])
        D1.donor_uuid = some [[[a1]]]) := by
  have hparse2 : (semverParse a2.workflow_version).isSome := hv ▸ hparse
  have hcmp12 : semverCompare a1.workflow_version a2.workflow_version = some 0 := by
    rw [hv]
    exact semverCompare_self hparse2
  have hcmp21 : semverCompare a2.workflow_version a1.workflow_version = some 0 := by
    rw [hv]
    exact semverCompare_self hparse2
  refine ⟨fun T1 T2 h1 h2 hlt => ⟨?_, ?_⟩, fun hmiss => ?_, fun T1 T2 h1 h2 hlt => ?_⟩
  · have hres := resolveConflict_single_tie_later a1 a2 T1 T2 hcmp12 h1 h2 hlt
    exact scenario_outcome D1 D2 S1 S2 M1 M2 a1 a2 [a2] [T2] hd hsp hsa hat hres
  · have hres := resolveConflict_single_tie_notlater a2 a1 T2 T1 hcmp21 h2 h1 (tsLt_asymm hlt)
    have := scenario_outcome D2 D1 S2 S1 M2 M1 a2 a1 [a2] [] hd.symm hsp.symm hsa.symm
      hat.symm hres
    rw [← hd]
    exact this
  · have hres := resolveConflict_single_tie_missing a1 a2 hcmp12 hmiss
    exact scenario_outcome D1 D2 S1 S2 M1 M2 a1 a2 [a1] [] hd hsp hsa hat hres
  · have hres := resolveConflict_single_tie_notlater a1 a2 T1 T2 hcmp12 h1 h2 hlt
    exact scenario_outcome D1 D2 S1 S2 M1 M2 a1 a2 [a1] [] hd hsp hsa hat hres

/-- Witness for C2 at concrete bundles with equal version 1.0.0 and timestamps
2017-01-01 and 2017-01-02. -/
theorem C2_witness :
    ((donorFixture "t2").donor_uuid = (donorFixture "t1").donor_uuid ∧
      specimenFixture.specimen_uuid = specimenFixture.specimen_uuid ∧
      sampleFixture.sample_uuid = sampleFixture.sample_uuid ∧
      (analysisFixture "wf" "1.0.0" "bu1" (some "2017-01-01T00:00:00")).analysis_type =
        (analysisFixture "wf2" "1.0.0" "bu2" (some "2017-01-02T00:00:00")).analysis_type ∧
      (analysisFixture "wf" "1.0.0" "bu1" (some "2017-01-01T00:00:00")).workflow_version =
        (analysisFixture "wf2" "1.0.0" "bu2" (some "2017-01-02T00:00:00")).workflow_version ∧
      (semverParse (analysisFixture "wf" "1.0.0" "bu1"
        (some "2017-01-01T00:00:00")).workflow_version).isSome = true) ∧
    (∀ T1 T2,
      (analysisFixture "wf" "1.0.0" "bu1" (some "2017-01-01T00:00:00")).timestamp = some T1 →
      (analysisFixture "wf2" "1.0.0" "bu2" (some "2017-01-02T00:00:00")).timestamp = some T2 →
      tsLt T1 T2 = true →
      donorAnalyses (mergeDonors
        [scenarioBundle (donorFixture "t1") specimenFixture sampleFixture
          [analysisFixture "wf" "1.0.0" "bu1" (some "2017-01-01T00:00:00")],
         scenarioBundle (donorFixture "t2") specimenFixture sampleFixture
          [analysisFixture "wf2" "1.0.0" "bu2" (some "2017-01-02T00:00:00")]])
        (donorFixture "t1").donor_uuid =
          some [[[analysisFixture "wf2" "1.0.0" "bu2" (some "2017-01-02T00:00:00")]]] ∧
      donorAnalyses (mergeDonors
        [scenarioBundle (donorFixture "t2") specimenFixture sampleFixture
          [analysisFixture "wf2" "1.0.0" "bu2" (some "2017-01-02T00:00:00")],
         scenarioBundle (donorFixture "t1") specimenFixture sampleFixture
          [analysisFixture "wf" "1.0.0" "bu1" (some "2017-01-01T00:00:00")]])
        (donorFixture "t1").donor_uuid =
          some [[[analysisFixture "wf2" "1.0.0" "bu2" (some "2017-01-02T00:00:00")]]]) ∧
    tsLt "2017-01-01T00:00:00" "2017-01-02T00:00:00" = true :=
  ⟨⟨rfl, rfl, rfl, rfl, rfl, by decide⟩,
    (C2_timestamp_tiebreak (donorFixture "t1") (donorFixture "t2") specimenFixture
      specimenFixture sampleFixture sampleFixture
      (analysisFixture "wf" "1.0.0" "bu1" (some "2017-01-01T00:00:00"))
      (analysisFixture "wf2" "1.0.0" "bu2" (some "2017-01-02T00:00:00"))
      rfl rfl rfl rfl rfl (by decide)).1,
    by decide⟩

/-- C4.  Analyses under the same sample are deduplicated by analysis_type alone:
an incoming analysis whose type is unseen under the sample is appended as a new
entry, while two entries of the same type are competing versions of which at most
one survives, even when their workflow_name and bundle_uuid differ. -/
theorem C4_dedup_by_analysis_type (D1 D2 : Bundle) (S1 S2 : Specimen) (M1 M2 : Sample)
    (a1 a2 : Analysis)
    (hd : D2.donor_uuid = D1.donor_uuid)
    (hsp : S1.specimen_uuid = S2.specimen_uuid)
    (hsa : M1.sample_uuid = M2.sample_uuid) :
    (a2.analysis_type ≠ a1.analysis_type →
      donorAnalyses (mergeDonors [scenarioBundle D1 S1 M1 [a1], scenarioBundle D2 S2 M2 [a2]])
        D1.donor_uuid = some [[[a1, a2]]]) ∧
    (a1.analysis_type = a2.analysis_type →
      a1.workflow_name ≠ a2.workflow_name →
      a1.bundle_uuid ≠ a2.bundle_uuid →
      (semverCompare a1.workflow_version a2.workflow_version).isSome →
      donorAnalyses (mergeDonors [scenarioBundle D1 S1 M1 [a1], scenarioBundle D2 S2 M2 [a2]])
        D1.donor_uuid = some [[[a1]]] ∨
      donorAnalyses (mergeDonors [scenarioBundle D1 S1 M1 [a1], scenarioBundle D2 S2 M2 [a2]])
        D1.donor_uuid = some [[[a2]]]) := by
  constructor
  · intro hne
    have hfilter : ((({ M1 with analysis := [a1] } : Sample).analysis).filter
        (fun sb => sb.analysis_type == a2.analysis_type)).getLast? = none := by
      simp [beq_false_of_ne (fun h => hne h.symm)]
    have hma : mergeAnalyses ({ M1 with analysis := [a1] } : Sample) [a2] =
        some ({ M1 with analysis := [a1, a2] }, tsRec a2) :=
      mergeAnalyses_fresh ({ M1 with analysis := [a1] } : Sample) a2 hfilter
    exact donorAnalyses_two_single (scenarioBundle D1 S1 M1 [a1]) (scenarioBundle D2 S2 M2 [a2])
      ({ S1 with samples := [{ M1 with analysis := [a1] }] })
      ({ S2 with samples := [{ M2 with analysis := [a2] }] })
      ({ M1 with analysis := [a1] }) ({ M2 with analysis := [a2] })
      rfl rfl rfl rfl hd hsp hsa [a1, a2] (tsRec a2) hma
  · intro hat hwn hbu hsome
    obtain ⟨c, hc⟩ := Option.isSome_iff_exists.mp hsome
    rcases resolveConflict_single_cases a1 a2 c hc with hres | hres
    · exact Or.inr (scenario_outcome D1 D2 S1 S2 M1 M2 a1 a2 [a2] (tsRec a2) hd hsp hsa hat hres)
    · exact Or.inl (scenario_outcome D1 D2 S1 S2 M1 M2 a1 a2 [a1] [] hd hsp hsa hat hres)

/-- Witness for C4: a fresh analysis_type is appended, and same-type entries with
different workflow names and bundle uuids leave a single survivor. -/
theorem C4_witness :
    ((donorFixture "t2").donor_uuid = (donorFixture "t1").donor_uuid ∧
      specimenFixture.specimen_uuid = specimenFixture.specimen_uuid ∧
      sampleFixture.sample_uuid = sampleFixture.sample_uuid ∧
      (analysisFixture "wf" "1.0.0" "bu1" none).analysis_type =
        (analysisFixture "wf2" "2.0.0" "bu2" none).analysis_type ∧
      (analysisFixture "wf" "1.0.0" "bu1" none).workflow_name ≠
        (analysisFixture "wf2" "2.0.0" "bu2" none).workflow_name ∧
      (analysisFixture "wf" "1.0.0" "bu1" none).bundle_uuid ≠
        (analysisFixture "wf2" "2.0.0" "bu2" none).bundle_uuid ∧
      (semverCompare (analysisFixture "wf" "1.0.0" "bu1" none).workflow_version
        (analysisFixture "wf2" "2.0.0" "bu2" none).workflow_version).isSome = true) ∧
    (donorAnalyses (mergeDonors
        [scenarioBundle (donorFixture "t1") specimenFixture sampleFixture
          [analysisFixture "wf" "1.0.0" "bu1" none],
         scenarioBundle (donorFixture "t2") specimenFixture sampleFixture
          [analysisFixture "wf2" "2.0.0" "bu2" none]])
        (donorFixture "t1").donor_uuid = some [[[analysisFixture "wf" "1.0.0" "bu1" none]]] ∨
      donorAnalyses (mergeDonors
        [scenarioBundle (donorFixture "t1") specimenFixture sampleFixture
          [analysisFixture "wf" "1.0.0" "bu1" none],
         scenarioBundle (donorFixture "t2") specimenFixture sampleFixture
          [analysisFixture "wf2" "2.0.0" "bu2" none]])
        (donorFixture "t1").donor_uuid = some [[[analysisFixture "wf2" "2.0.0" "bu2" none]]]) :=
  ⟨⟨rfl, rfl, rfl, rfl, by decide, by decide, by decide⟩,
    (C4_dedup_by_analysis_type (donorFixture "t1") (donorFixture "t2") specimenFixture
      specimenFixture sampleFixture sampleFixture
      (analysisFixture "wf" "1.0.0" "bu1" none) (analysisFixture "wf2" "2.0.0" "bu2" none)
      rfl rfl rfl).2 rfl (by decide) (by decide) (by decide)⟩

/-- C9.  A malformed semantic version in either the saved or the incoming analysis
entry makes the version comparison fail during conflict resolution, and the
failure is fatal to the whole merge run: mergeDonors produces no mapping at all. -/
theorem C9_malformed_version_fatal (D1 D2 : Bundle) (S1 S2 : Specimen) (M1 M2 : Sample)
    (a1 a2 : Analysis)
    (hd : D2.donor_uuid = D1.donor_uuid)
    (hsp : S1.specimen_uuid = S2.specimen_uuid)
    (hsa : M1.sample_uuid = M2.sample_uuid)
    (hat : a1.analysis_type = a2.analysis_type)
    (hbad : semverParse a1.workflow_version = none ∨ semverParse a2.workflow_version = none) :
    mergeDonors [scenarioBundle D1 S1 M1 [a1], scenarioBundle D2 S2 M2 [a2]] = none := by
  have hcmp : semverCompare a1.workflow_version a2.workflow_version = none := by
    rcases hbad with h | h
    · exact semverCompare_none_left _ h
    · exact semverCompare_none_right _ h
  have hres : resolveConflict [a1] a1 a2 = none := by
    rw [resolveConflict, hcmp]
  have hfilter : ((({ M1 with analysis := [a1] } : Sample).analysis).filter
      (fun sb => sb.analysis_type == a2.analysis_type)).getLast? = some a1 := by
    simp [hat]
  have hma : mergeAnalyses ({ M1 with analysis := [a1] } : Sample) [a2] = none := by
    rw [mergeAnalyses_conflict _ a1 a2 hfilter]
    show (resolveConflict [a1] a1 a2).map _ = _
    rw [hres]
    rfl
  rw [mergeDonors_two_single (scenarioBundle D1 S1 M1 [a1]) (scenarioBundle D2 S2 M2 [a2])
    ({ S1 with samples := [{ M1 with analysis := [a1] }] })
    ({ S2 with samples := [{ M2 with analysis := [a2] }] })
    ({ M1 with analysis := [a1] }) ({ M2 with analysis := [a2] })
    rfl rfl rfl rfl hd hsp hsa]
  show (mergeAnalyses ({ M1 with analysis := [a1] } : Sample) [a2]).map _ = none
  rw [hma]
  rfl

/-- Witness for C9 at a concrete malformed saved version. -/
theorem C9_witness :
    ((donorFixture "t2").donor_uuid = (donorFixture "t1").donor_uuid ∧
      specimenFixture.specimen_uuid = specimenFixture.specimen_uuid ∧
      sampleFixture.sample_uuid = sampleFixture.sample_uuid ∧
      (analysisFixture "wf" "not-a-version" "bu1" none).analysis_type =
        (analysisFixture "wf" "2.0.0" "bu2" none).analysis_type ∧
      (semverParse (analysisFixture "wf" "not-a-version" "bu1" none).workflow_version = none ∨
        semverParse (analysisFixture "wf" "2.0.0" "bu2" none).workflow_version = none)) ∧
    mergeDonors
      [scenarioBundle (donorFixture "t1") specimenFixture sampleFixture
        [analysisFixture "wf" "not-a-version" "bu1" none],
       scenarioBundle (donorFixture "t2") specimenFixture sampleFixture
        [analysisFixture "wf" "2.0.0" "bu2" none]] = none :=
  ⟨⟨rfl, rfl, rfl, rfl, Or.inl (by decide)⟩,
    C9_malformed_version_fatal (donorFixture "t1") (donorFixture "t2") specimenFixture
      specimenFixture sampleFixture sampleFixture
      (analysisFixture "wf" "not-a-version" "bu1" none) (analysisFixture "wf" "2.0.0" "bu2" none)
      rfl rfl rfl rfl (Or.inl (by decide))⟩


/- ### Claim theorems: determinism and order independence -/

theorem setTimestamp_self (b : Bundle) : ({ b with timestamp := b.timestamp } : Bundle) = b :=
  rfl

/-- Merging two bundles with distinct donor identifiers inserts both verbatim, and
the rollup leaves each timestamp unchanged (the maximum of a singleton history). -/
theorem mergeDonors_two_disjoint (A B : Bundle) (h : A.donor_uuid ≠ B.donor_uuid) :
    mergeDonors [A, B] = some [(A.donor_uuid, A), (B.donor_uuid, B)] := by
  rw [mergeDonors, mergeLoop_new [] [] A [B] rfl]
  simp only [List.nil_append]
  have hlk : ([(A.donor_uuid, A)] : List (String × Bundle)).lookup B.donor_uuid = none := by
    rw [lookup_cons_ne _ _ (fun hh => h hh.symm)]
    rfl
  rw [mergeLoop_new _ _ B [] hlk, mergeLoop]
  show some (rollupTimestamps _ _) = _
  rw [List.singleton_append, List.singleton_append, rollupTimestamps,
    setDonorTimestamp_cons_self, rollupTimestamps,
    setDonorTimestamp_cons_ne _ _ _ h, setDonorTimestamp_cons_self, rollupTimestamps]
  show some ((A.donor_uuid, { A with timestamp := A.timestamp }) ::
    (B.donor_uuid, { B with timestamp := B.timestamp }) :: []) = _
  rw [setTimestamp_self, setTimestamp_self]

/-- C8.  The donor merge is a deterministic function of its input sequence: merging
the same sequence twice yields an identical DonorMapping, and for two bundles with
disjoint donor identifiers the two processing orders yield the same mapping (the
lookup at every key agrees, which is dictionary equality). -/
theorem C8_merge_deterministic_commutative :
    (∀ S : List Bundle, mergeDonors S = mergeDonors S) ∧
    ∀ A B : Bundle, A.donor_uuid ≠ B.donor_uuid →
      (∃ m, mergeDonors [A, B] = some m) ∧
      ∀ k, mergedLookup (mergeDonors [A, B]) k = mergedLookup (mergeDonors [B, A]) k := by
  refine ⟨fun _ => rfl, fun A B h => ?_⟩
  rw [mergeDonors_two_disjoint A B h, mergeDonors_two_disjoint B A (fun hh => h hh.symm)]
  refine ⟨⟨_, rfl⟩, fun k => ?_⟩
  simp only [mergedLookup]
  by_cases hA : k = A.donor_uuid
  · subst hA
    rw [lookup_cons_self, lookup_cons_ne _ _ h, lookup_cons_self]
  · by_cases hB : k = B.donor_uuid
    · subst hB
      rw [lookup_cons_ne _ _ hA, lookup_cons_self, lookup_cons_self]
    · rw [lookup_cons_ne _ _ hA, lookup_cons_ne _ _ hB,
        lookup_cons_ne _ _ hB, lookup_cons_ne _ _ hA]

/-- Witness for C8 at two concrete bundles with distinct donor identifiers. -/
theorem C8_witness :
    (donorFixture "t1").donor_uuid ≠
      ({ donorFixture "t2" with donor_uuid := "donor-2" } : Bundle).donor_uuid ∧
    ((∃ m, mergeDonors
        [donorFixture "t1", { donorFixture "t2" with donor_uuid := "donor-2" }] = some m) ∧
      ∀ k, mergedLookup (mergeDonors
          [donorFixture "t1", { donorFixture "t2" with donor_uuid := "donor-2" }]) k =
        mergedLookup (mergeDonors
          [{ donorFixture "t2" with donor_uuid := "donor-2" }, donorFixture "t1"]) k) :=
  ⟨by decide,
    C8_merge_deterministic_commutative.2 (donorFixture "t1")
      ({ donorFixture "t2" with donor_uuid := "donor-2" }) (by decide)⟩


/- ### Key-set invariants of the merge loop and the rollup -/

/-- The merge loop keeps the donor mapping and the timestamp history keyed by the
same donor sequence, with no duplicate donor keys. -/
theorem mergeLoop_keys :
    ∀ (S : List Bundle) (dm : List (String × Bundle)) (uts : List (String × List String))
      (dm2 : List (String × Bundle)) (uts2 : List (String × List String)),
      mergeLoop dm uts S = some (dm2, uts2) →
      dm.map Prod.fst = uts.map Prod.fst → (dm.map Prod.fst).Nodup →
      dm2.map Prod.fst = uts2.map Prod.fst ∧ (dm2.map Prod.fst).Nodup := by
  intro S
  induction S with
  | nil =>
    intro dm uts dm2 uts2 h halign hnd
    rw [mergeLoop] at h
    cases h
    exact ⟨halign, hnd⟩
  | cons metaObj rest ih =>
    intro dm uts dm2 uts2 h halign hnd
    rcases hl : dm.lookup metaObj.donor_uuid with _ | donorObj
    · rw [mergeLoop, hl] at h
      have hknot : metaObj.donor_uuid ∉ dm.map Prod.fst :=
        (lookup_eq_none_iff_notmem dm _).mp hl
      refine ih (dm ++ [(metaObj.donor_uuid, metaObj)])
        (uts ++ [(metaObj.donor_uuid, [metaObj.timestamp])]) dm2 uts2 h ?_ ?_
      · rw [List.map_append, List.map_append, halign]
        rfl
      · rw [List.map_append, List.nodup_append]
        refine ⟨hnd, List.nodup_singleton _, ?_⟩
        intro x hx hx2
        simp at hx2
        subst hx2
        exact hknot hx
    · have hsomek : (dm.lookup metaObj.donor_uuid).isSome := by
        rw [hl]
        rfl
      rcases hms : mergeSpecimens donorObj metaObj.specimen with _ | ⟨d2, rec⟩
      · simp only [mergeLoop, hl, hms] at h
        cases h
      · simp only [mergeLoop, hl, hms] at h
        refine ih (setAssoc dm metaObj.donor_uuid d2)
          (appendTs uts metaObj.donor_uuid rec) dm2 uts2 h ?_ ?_
        · rw [mapfst_setAssoc _ hsomek, mapfst_appendTs, halign]
        · rw [mapfst_setAssoc _ hsomek]
          exact hnd

/-- The rollup rewrites exactly the timestamp of the donors listed in the history
map, with the maximum of their history, provided the history keys are free of
duplicates. -/
theorem rollup_lookup_general :
    ∀ (uts : List (String × List String)) (dm : List (String × Bundle)) (k : String),
      (uts.map Prod.fst).Nodup →
      (rollupTimestamps dm uts).lookup k =
        match uts.lookup k with
        | some tsl => (dm.lookup k).map (fun b => { b with timestamp := listMax tsl })
        | none => dm.lookup k := by
  intro uts
  induction uts with
  | nil =>
    intro dm k _
    rw [rollupTimestamps]
    rfl
  | cons p rest ih =>
    obtain ⟨i, tsl⟩ := p
    intro dm k hnd
    rw [List.map_cons, List.nodup_cons] at hnd
    obtain ⟨hinotin, hndr⟩ := hnd
    rw [rollupTimestamps, ih (setDonorTimestamp dm i (listMax tsl)) k hndr]
    by_cases hk : k = i
    · subst hk
      have hr : rest.lookup k = none := (lookup_eq_none_iff_notmem rest k).mpr hinotin
      rw [hr, lookup_cons_self, lookup_setDonorTimestamp_self]
    · rw [lookup_cons_ne _ _ hk, lookup_setDonorTimestamp_ne _ _ hk]

/- ### Claim theorem: donor timestamp rollup -/

/-- C5.  Every accepted analysis timestamp is recorded in the donor timestamp
history, which starts with the first bundle timestamp, and after all bundles are
processed each merged donor carries the maximum of its history as its top-level
timestamp; in particular a donor whose accepted analysis entries carry T1, T2 and
T3 ends with timestamp max (max T1 T2) T3. -/
theorem C5_donor_timestamp_rollup :
    (∀ (S : List Bundle) (dm : List (String × Bundle)) (uts : List (String × List String)),
      mergeLoop [] [] S = some (dm, uts) →
      ∀ k b, mergedLookup (mergeDonors S) k = some b →
        ∃ tsl, uts.lookup k = some tsl ∧ b.timestamp = listMax tsl) ∧
    (∀ (D1 D2 D3 : Bundle) (S1 S2 S3 : Specimen) (M1 M2 M3 : Sample)
      (a1 a2 a3 : Analysis) (T1 T2 T3 : String),
      D2.donor_uuid = D1.donor_uuid → D3.donor_uuid = D1.donor_uuid →
      S1.specimen_uuid = S2.specimen_uuid → S1.specimen_uuid = S3.specimen_uuid →
      M1.sample_uuid = M2.sample_uuid → M1.sample_uuid = M3.sample_uuid →
      a2.analysis_type ≠ a1.analysis_type → a3.analysis_type ≠ a1.analysis_type →
      a3.analysis_type ≠ a2.analysis_type →
      D1.timestamp = T1 → a1.timestamp = some T1 →
      a2.timestamp = some T2 → a3.timestamp = some T3 →
      (mergedLookup (mergeDonors
          [scenarioBundle D1 S1 M1 [a1], scenarioBundle D2 S2 M2 [a2],
           scenarioBundle D3 S3 M3 [a3]]) D1.donor_uuid).map Bundle.timestamp =
        some (max (max T1 T2) T3)) := by
  constructor
  · intro S dm uts hloop k b hlk
    obtain ⟨halign, hnd⟩ := mergeLoop_keys S [] [] dm uts hloop rfl List.nodup_nil
    have hndu : (uts.map Prod.fst).Nodup := halign ▸ hnd
    rw [mergeDonors, hloop] at hlk
    simp only [mergedLookup] at hlk
    rw [rollup_lookup_general uts dm k hndu] at hlk
    rcases hu : uts.lookup k with _ | tsl
    · rw [hu] at hlk
      have hmem : k ∉ uts.map Prod.fst := (lookup_eq_none_iff_notmem uts k).mp hu
      rw [← halign] at hmem
      rw [(lookup_eq_none_iff_notmem dm k).mpr hmem] at hlk
      cases hlk
    · rw [hu] at hlk
      rcases hdm : dm.lookup k with _ | b0
      · rw [hdm] at hlk
        cases hlk
      · rw [hdm] at hlk
        simp only [Option.map_some'] at hlk
        cases hlk
        exact ⟨tsl, rfl, rfl⟩
  · intro D1 D2 D3 S1 S2 S3 M1 M2 M3 a1 a2 a3 T1 T2 T3 hd2 hd3 hsp2 hsp3 hsa2 hsa3
      ht21 ht31 ht32 hT1 ha1 ha2 ha3
    have hf2 : ((({ M1 with analysis := [a1] } : Sample).analysis).filter
        (fun sb => sb.analysis_type == a2.analysis_type)).getLast? = none := by
      simp [beq_false_of_ne (fun hh => ht21 hh.symm)]
    have hma2 : mergeAnalyses ({ M1 with analysis := [a1] } : Sample)
        (({ M2 with analysis := [a2] } : Sample).analysis) =
        some ({ M1 with analysis := [a1, a2] }, [T2]) := by
      show mergeAnalyses ({ M1 with analysis := [a1] } : Sample) [a2] = _
      rw [mergeAnalyses_fresh _ a2 hf2, tsRec, ha2]
      rfl
    have hf3 : ((({ M1 with analysis := [a1, a2] } : Sample).analysis).filter
        (fun sb => sb.analysis_type == a3.analysis_type)).getLast? = none := by
      simp [beq_false_of_ne (fun hh => ht31 hh.symm), beq_false_of_ne (fun hh => ht32 hh.symm)]
    have hma3 : mergeAnalyses ({ M1 with analysis := [a1, a2] } : Sample)
        (({ M3 with analysis := [a3] } : Sample).analysis) =
        some ({ M1 with analysis := [a1, a2, a3] }, [T3]) := by
      show mergeAnalyses ({ M1 with analysis := [a1, a2] } : Sample) [a3] = _
      rw [mergeAnalyses_fresh _ a3 hf3, tsRec, ha3]
      rfl
    have hloop : mergeLoop [] []
        [scenarioBundle D1 S1 M1 [a1], scenarioBundle D2 S2 M2 [a2],
         scenarioBundle D3 S3 M3 [a3]] =
        some ([((scenarioBundle D1 S1 M1 [a1]).donor_uuid, scenarioBundle D1 S1 M1 [a1, a2, a3])],
          [((scenarioBundle D1 S1 M1 [a1]).donor_uuid,
            ([(scenarioBundle D1 S1 M1 [a1]).timestamp] ++ [T2]) ++ [T3])]) := by
      rw [mergeLoop_new [] [] _ _ rfl]
      simp only [List.nil_append]
      rw [mergeLoop_cons_into_single (scenarioBundle D1 S1 M1 [a1]).donor_uuid
        (scenarioBundle D1 S1 M1 [a1])
        ({ S1 with samples := [{ M1 with analysis := [a1] }] })
        ({ M1 with analysis := [a1] })
        [(scenarioBundle D1 S1 M1 [a1]).timestamp]
        (scenarioBundle D2 S2 M2 [a2])
        ({ S2 with samples := [{ M2 with analysis := [a2] }] })
        ({ M2 with analysis := [a2] })
        [scenarioBundle D3 S3 M3 [a3]]
        rfl rfl rfl rfl hd2 hsp2 hsa2, hma2]
      show mergeLoop
        [((scenarioBundle D1 S1 M1 [a1]).donor_uuid, scenarioBundle D1 S1 M1 [a1, a2])]
        [((scenarioBundle D1 S1 M1 [a1]).donor_uuid,
          [(scenarioBundle D1 S1 M1 [a1]).timestamp] ++ [T2])]
        [scenarioBundle D3 S3 M3 [a3]] = _
      rw [mergeLoop_cons_into_single (scenarioBundle D1 S1 M1 [a1]).donor_uuid
        (scenarioBundle D1 S1 M1 [a1, a2])
        ({ S1 with samples := [{ M1 with analysis := [a1, a2] }] })
        ({ M1 with analysis := [a1, a2] })
        ([(scenarioBundle D1 S1 M1 [a1]).timestamp] ++ [T2])
        (scenarioBundle D3 S3 M3 [a3])
        ({ S3 with samples := [{ M3 with analysis := [a3] }] })
        ({ M3 with analysis := [a3] })
        []
        rfl rfl rfl rfl hd3 hsp3 hsa3, hma3]
      rfl
    rw [mergeDonors, hloop]
    show (mergedLookup (some (rollupTimestamps _ _)) _).map _ = _
    rw [rollup_single]
    simp only [mergedLookup]
    rw [show (scenarioBundle D1 S1 M1 [a1]).donor_uuid = D1.donor_uuid from rfl,
      lookup_cons_self]
    simp only [Option.map_some']
    show some (listMax [D1.timestamp, T2, T3]) = _
    rw [hT1]
    rfl



/-- Witness for C5 at three concrete bundles carrying timestamps 2017-01-01,
2017-01-02 and 2017-01-03. -/
theorem C5_witness :
    ((donorFixture "x2").donor_uuid = (donorFixture "2017-01-01T00:00:00").donor_uuid ∧
      (donorFixture "x3").donor_uuid = (donorFixture "2017-01-01T00:00:00").donor_uuid ∧
      specimenFixture.specimen_uuid = specimenFixture.specimen_uuid ∧
      sampleFixture.sample_uuid = sampleFixture.sample_uuid ∧
      ({ analysisFixture "wf" "1.0.0" "bu2" (some "2017-01-02T00:00:00") with
          analysis_type := "expression" } : Analysis).analysis_type ≠
        (analysisFixture "wf" "1.0.0" "bu1" (some "2017-01-01T00:00:00")).analysis_type ∧
      ({ analysisFixture "wf" "1.0.0" "bu3" (some "2017-01-03T00:00:00") with
          analysis_type := "variant" } : Analysis).analysis_type ≠
        (analysisFixture "wf" "1.0.0" "bu1" (some "2017-01-01T00:00:00")).analysis_type ∧
      ({ analysisFixture "wf" "1.0.0" "bu3" (some "2017-01-03T00:00:00") with
          analysis_type := "variant" } : Analysis).analysis_type ≠
        ({ analysisFixture "wf" "1.0.0" "bu2" (some "2017-01-02T00:00:00") with
          analysis_type := "expression" } : Analysis).analysis_type ∧
      (donorFixture "2017-01-01T00:00:00").timestamp = "2017-01-01T00:00:00" ∧
      (analysisFixture "wf" "1.0.0" "bu1" (some "2017-01-01T00:00:00")).timestamp =
        some "2017-01-01T00:00:00") ∧
    (mergedLookup (mergeDonors
        [scenarioBundle (donorFixture "2017-01-01T00:00:00") specimenFixture sampleFixture
          [analysisFixture "wf" "1.0.0" "bu1" (some "2017-01-01T00:00:00")],
         scenarioBundle (donorFixture "x2") specimenFixture sampleFixture
          [{ analysisFixture "wf" "1.0.0" "bu2" (some "2017-01-02T00:00:00") with
              analysis_type := "expression" }],
         scenarioBundle (donorFixture "x3") specimenFixture sampleFixture
          [{ analysisFixture "wf" "1.0.0" "bu3" (some "2017-01-03T00:00:00") with
              analysis_type := "variant" }]])
        (donorFixture "2017-01-01T00:00:00").donor_uuid).map Bundle.timestamp =
      some (max (max "2017-01-01T00:00:00" "2017-01-02T00:00:00") "2017-01-03T00:00:00") :=
  ⟨⟨rfl, rfl, rfl, rfl, by decide, by decide, by decide, rfl, rfl⟩,
    C5_donor_timestamp_rollup.2 (donorFixture "2017-01-01T00:00:00") (donorFixture "x2")
      (donorFixture "x3") specimenFixture specimenFixture specimenFixture
      sampleFixture sampleFixture sampleFixture
      (analysisFixture "wf" "1.0.0" "bu1" (some "2017-01-01T00:00:00"))
      ({ analysisFixture "wf" "1.0.0" "bu2" (some "2017-01-02T00:00:00") with
          analysis_type := "expression" })
      ({ analysisFixture "wf" "1.0.0" "bu3" (some "2017-01-03T00:00:00") with
          analysis_type := "variant" })
      "2017-01-01T00:00:00" "2017-01-02T00:00:00" "2017-01-03T00:00:00"
      rfl rfl rfl rfl rfl rfl (by decide) (by decide) (by decide) rfl rfl rfl rfl⟩


/- ### Claim theorem: donor-level fields come from the first bundle -/

theorem donorFieldsEq_refl (a : Bundle) : donorFieldsEq a a :=
  ⟨rfl, rfl, rfl, rfl, rfl, rfl, rfl⟩

theorem donorFieldsEq_trans {a b c : Bundle} (h1 : donorFieldsEq a b) (h2 : donorFieldsEq b c) :
    donorFieldsEq a c := by
  obtain ⟨x1, x2, x3, x4, x5, x6, x7⟩ := h1
  obtain ⟨y1, y2, y3, y4, y5, y6, y7⟩ := h2
  exact ⟨x1.trans y1, x2.trans y2, x3.trans y3, x4.trans y4, x5.trans y5, x6.trans y6,
    x7.trans y7⟩

theorem donorFieldsEq_setTimestamp (b : Bundle) (ts : String) :
    donorFieldsEq ({ b with timestamp := ts }) b :=
  ⟨rfl, rfl, rfl, rfl, rfl, rfl, rfl⟩

/-- The specimen-level merge never touches the donor-level fields. -/
theorem mergeSpecimens_fields :
    ∀ (l : List Specimen) (d d2 : Bundle) (rec : List String),
      mergeSpecimens d l = some (d2, rec) → donorFieldsEq d2 d := by
  intro l
  induction l with
  | nil =>
    intro d d2 rec h
    rw [mergeSpecimens] at h
    cases h
    exact donorFieldsEq_refl _
  | cons specimen rest ih =>
    intro d d2 rec h
    rcases hf : findLastIdx (fun s => s.specimen_uuid == specimen.specimen_uuid) d.specimen
        with _ | ⟨i, specObj⟩
    · rw [mergeSpecimens, hf] at h
      exact ih { d with specimen := d.specimen ++ [specimen] } d2 rec h
    · rcases hms : mergeSamples specObj specimen.samples with _ | ⟨s2, rec1⟩
      · simp only [mergeSpecimens, hf, hms] at h
        cases h
      · simp only [mergeSpecimens, hf, hms] at h
        rcases hrec : mergeSpecimens { d with specimen := d.specimen.set i s2 } rest
            with _ | ⟨d3, rec2⟩
        · rw [hrec] at h
          cases h
        · rw [hrec] at h
          cases h
          exact ih { d with specimen := d.specimen.set i s2 } _ _ hrec

/-- Through the merge loop, the bundle stored under a donor key traces back with
unchanged donor-level fields either to the bundle already stored before the loop,
or to the first input bundle carrying that donor identifier. -/
theorem mergeLoop_fields :
    ∀ (S : List Bundle) (dm : List (String × Bundle)) (uts : List (String × List String))
      (dm2 : List (String × Bundle)) (uts2 : List (String × List String)),
      mergeLoop dm uts S = some (dm2, uts2) →
      ∀ k b, dm2.lookup k = some b →
        (∃ b0, dm.lookup k = some b0 ∧ donorFieldsEq b b0) ∨
        (dm.lookup k = none ∧
          ∃ first, S.find? (fun x => x.donor_uuid == k) = some first ∧ donorFieldsEq b first) := by
  intro S
  induction S with
  | nil =>
    intro dm uts dm2 uts2 h k b hb
    rw [mergeLoop] at h
    cases h
    exact Or.inl ⟨b, hb, donorFieldsEq_refl _⟩
  | cons metaObj rest ih =>
    intro dm uts dm2 uts2 h k b hb
    rcases hl : dm.lookup metaObj.donor_uuid with _ | donorObj
    · rw [mergeLoop, hl] at h
      rcases ih _ _ _ _ h k b hb with ⟨b0, hb0, heq⟩ | ⟨hnone, first, hfind, heq⟩
      · by_cases hk : k = metaObj.donor_uuid
        · subst hk
          have hsome : (dm ++ [(metaObj.donor_uuid, metaObj)]).lookup metaObj.donor_uuid =
              some metaObj := by
            rw [lookup_append_of_none hl, lookup_cons_self]
          rw [hsome] at hb0
          cases hb0
          refine Or.inr ⟨hl, metaObj, ?_, heq⟩
          exact List.find?_cons_of_pos _ (by simp)
        · have hpass : (dm ++ [(metaObj.donor_uuid, metaObj)]).lookup k = dm.lookup k := by
            rcases hdm : dm.lookup k with _ | w
            · rw [lookup_append_of_none hdm, lookup_cons_ne _ _ hk]
              rfl
            · exact lookup_append_of_some hdm _
          rw [hpass] at hb0
          exact Or.inl ⟨b0, hb0, heq⟩
      · have hkne : k ≠ metaObj.donor_uuid := by
          intro hkk
          subst hkk
          rw [lookup_append_of_none hl, lookup_cons_self] at hnone
          cases hnone
        refine Or.inr ⟨?_, first, ?_, heq⟩
        · rcases hdm : dm.lookup k with _ | w
          · rfl
          · rw [lookup_append_of_some hdm] at hnone
            cases hnone
        · rw [List.find?_cons_of_neg _ (by simp only [beq_iff_eq]; exact fun hh => hkne hh.symm)]
          exact hfind
    · rcases hms : mergeSpecimens donorObj metaObj.specimen with _ | ⟨d2, rec⟩
      · simp only [mergeLoop, hl, hms] at h
        cases h
      · simp only [mergeLoop, hl, hms] at h
        rcases ih _ _ _ _ h k b hb with ⟨b0, hb0, heq⟩ | ⟨hnone, first, hfind, heq⟩
        · by_cases hk : k = metaObj.donor_uuid
          · subst hk
            rw [lookup_setAssoc_self] at hb0
            cases hb0
            exact Or.inl ⟨donorObj, hl,
              donorFieldsEq_trans heq (mergeSpecimens_fields _ _ _ _ hms)⟩
          · rw [lookup_setAssoc_ne _ _ hk] at hb0
            exact Or.inl ⟨b0, hb0, heq⟩
        · by_cases hk : k = metaObj.donor_uuid
          · subst hk
            rw [lookup_setAssoc_self] at hnone
            cases hnone
          · rw [lookup_setAssoc_ne _ _ hk] at hnone
            refine Or.inr ⟨hnone, first, ?_, heq⟩
            rw [List.find?_cons_of_neg _ (by simp only [beq_iff_eq]; exact fun hh => hk hh.symm)]
            exact hfind

/-- C10.  In the merged DonorMapping each donor carries exactly the donor-level
fields (program, project, center_name, submitter_donor_id, donor_uuid,
submitter_donor_primary_site, schema_version) of the first input bundle with that
donor identifier; only the timestamp is rewritten, and the donor-level fields of
every later bundle for the same donor are ignored. -/
theorem C10_donor_fields_from_first (S : List Bundle) (m : List (String × Bundle))
    (k : String) (b : Bundle) (hm : mergeDonors S = some m) (hb : m.lookup k = some b) :
    ∃ first, S.find? (fun x => x.donor_uuid == k) = some first ∧ donorFieldsEq b first := by
  rcases hloop : mergeLoop [] [] S with _ | ⟨dm, uts⟩
  · rw [mergeDonors, hloop] at hm
    cases hm
  · rw [mergeDonors, hloop] at hm
    cases hm
    obtain ⟨halign, hnd⟩ := mergeLoop_keys S [] [] dm uts hloop rfl List.nodup_nil
    have hndu : (uts.map Prod.fst).Nodup := halign ▸ hnd
    rw [rollup_lookup_general uts dm k hndu] at hb
    rcases hu : uts.lookup k with _ | tsl
    · rw [hu] at hb
      rcases mergeLoop_fields S [] [] dm uts hloop k b hb with ⟨b0, hb0, _⟩ | ⟨_, first, hfind, heq⟩
      · cases hb0
      · exact ⟨first, hfind, heq⟩
    · rw [hu] at hb
      rcases hdm : dm.lookup k with _ | b0
      · rw [hdm] at hb
        cases hb
      · rw [hdm] at hb
        simp only [Option.map_some'] at hb
        cases hb
        rcases mergeLoop_fields S [] [] dm uts hloop k b0 hdm
            with ⟨bx, hbx, _⟩ | ⟨_, first, hfind, heq⟩
        · cases hbx
        · exact ⟨first, hfind,
            donorFieldsEq_trans (donorFieldsEq_setTimestamp b0 (listMax tsl)) heq⟩

/-- Witness for C10: two bundles for the same donor with different donor-level
descriptive fields; the merged donor keeps the fields of the first. -/
theorem C10_witness :
    ∃ m b,
      mergeDonors
        [scenarioBundle (donorFixture "t1") specimenFixture sampleFixture
          [analysisFixture "wf" "1.0.0" "bu1" none],
         scenarioBundle ({ donorFixture "t2" with program := "prog2" }) specimenFixture
          sampleFixture
          [{ analysisFixture "wf" "1.0.0" "bu2" none with analysis_type := "expression" }]] =
        some m ∧
      m.lookup "donor-1" = some b ∧
      ∃ first,
        [scenarioBundle (donorFixture "t1") specimenFixture sampleFixture
          [analysisFixture "wf" "1.0.0" "bu1" none],
         scenarioBundle ({ donorFixture "t2" with program := "prog2" }) specimenFixture
          sampleFixture
          [{ analysisFixture "wf" "1.0.0" "bu2" none with
              analysis_type := "expression" }]].find?
          (fun x => x.donor_uuid == "donor-1") = some first ∧ donorFieldsEq b first := by
  refine ⟨_, _, rfl, rfl, C10_donor_fields_from_first _ _ _ _ rfl rfl⟩


/- ### Claim theorems: missing business-key fields -/

theorem required_subset_props :
    ∀ f ∈ inputMetadataSchema.required, f ∈ inputMetadataSchema.properties := by
  decide

theorem required_ne_workflow_uuid :
    ∀ f ∈ inputMetadataSchema.required, f ≠ "workflow_uuid" := by
  decide

theorem lookup_propMap (props : List String) (d : PyDict) (f : String) (hf : f ∈ props) :
    (props.map (fun p => (p, getValueFromObject d p))).lookup f =
      some (getValueFromObject d f) := by
  induction props with
  | nil => cases hf
  | cons q qs ih =>
    by_cases hfq : f = q
    · subst hfq
      rw [List.map_cons, lookup_cons_self]
    · rcases List.mem_cons.mp hf with hq | hq
      · exact absurd hq hfq
      · rw [List.map_cons, lookup_cons_ne _ _ hfq]
        exact ih hq

theorem validate_fails_at (obj : PyDict) (f : String) (hf : f ∈ inputMetadataSchema.required)
    (hv : obj.lookup f = some none) :
    validateObjAgainstJsonSchema obj inputMetadataSchema = false := by
  rw [validateObjAgainstJsonSchema]
  refine List.all_eq_false.mpr ⟨f, hf, ?_⟩
  rw [hv]
  simp

theorem buildDataObj_lookup_null (d2 : PyDict) (f0 : String)
    (hf0 : f0 ∈ inputMetadataSchema.properties) (hneq : f0 ≠ "workflow_uuid")
    (hnull : d2.lookup f0 = some none) :
    (buildDataObj d2 inputMetadataSchema).lookup f0 = some none := by
  rw [buildDataObj]
  rcases hw : d2.lookup "workflow_uuid" with _ | wv
  · rw [lookup_propMap _ _ _ hf0, getValueFromObject, hnull]
  · rw [lookup_setAssoc_ne _ _ hneq, lookup_propMap _ _ _ hf0, getValueFromObject, hnull]

/-- A record whose uuid derivation stopped at a null required field fails schema
validation, so getDataObj drops it. -/
theorem getDataObj_invalid (d d2 : PyDict) (f0 : String)
    (hs : setUuids d = Except.ok d2) (hf0 : f0 ∈ inputMetadataSchema.required)
    (hnull : d2.lookup f0 = some none) :
    getDataObj d inputMetadataSchema = Except.ok none := by
  rw [getDataObj, hs]
  show Except.ok
      (if validateObjAgainstJsonSchema (buildDataObj d2 inputMetadataSchema)
          inputMetadataSchema = true
        then some (buildDataObj d2 inputMetadataSchema) else none) = _
  rw [validate_fails_at _ f0 hf0
    (buildDataObj_lookup_null d2 f0 (required_subset_props f0 hf0)
      (required_ne_workflow_uuid f0 hf0) hnull)]
  rfl

/-- C6.  The claim that a record with a missing required business-key field is
always skipped without aborting the batch is false: a field absent from the record
entirely raises an uncaught KeyError inside setUuids, which is fatal to the whole
batch (the following valid record is never processed). -/
theorem C6_counterexample :
    processBatch inputMetadataSchema [recordMissingKey, recordComplete] =
      Except.error "KeyError: center_name" := by
  rfl


/-- C6 (amended).  A required business-key field that is present but null makes
setUuids log and stop, schema validation then rejects the rebuilt record, and
getDataObj yields None: the record is skipped and batch processing continues
unchanged on the remaining records.  (A field absent from the record key set
instead raises, per the counterexample.) -/
theorem C6_null_business_key_skipped (d : PyDict) (rest : List PyDict)
    (hall : ∀ f ∈ inputMetadataSchema.required, (d.lookup f).isSome)
    (hnull : ∃ f ∈ inputMetadataSchema.required, d.lookup f = some none) :
    getDataObj d inputMetadataSchema = Except.ok none ∧
      processBatch inputMetadataSchema (d :: rest) = processBatch inputMetadataSchema rest := by
  have main : ∃ d2 f0, setUuids d = Except.ok d2 ∧ f0 ∈ inputMetadataSchema.required ∧
      d2.lookup f0 = some none := by
    obtain ⟨v1, hv1⟩ := Option.isSome_iff_exists.mp (hall "center_name" (by decide))
    obtain ⟨v2, hv2⟩ := Option.isSome_iff_exists.mp (hall "submitter_donor_id" (by decide))
    obtain ⟨v3, hv3⟩ := Option.isSome_iff_exists.mp (hall "submitter_specimen_id" (by decide))
    obtain ⟨v4, hv4⟩ := Option.isSome_iff_exists.mp (hall "submitter_sample_id" (by decide))
    obtain ⟨v5, hv5⟩ := Option.isSome_iff_exists.mp (hall "workflow_name" (by decide))
    obtain ⟨v6, hv6⟩ := Option.isSome_iff_exists.mp (hall "workflow_version" (by decide))
    rcases v1 with _ | s1
    · refine ⟨d, "center_name", ?_, by decide, hv1⟩
      simp only [setUuids, uuidKeyFields, setUuidsLoop, collectKeyList, hv1]
    rcases v2 with _ | s2
    · refine ⟨d, "submitter_donor_id", ?_, by decide, hv2⟩
      simp only [setUuids, uuidKeyFields, setUuidsLoop, collectKeyList, hv1, hv2]
    rcases v3 with _ | s3
    · have e1 : (setAssoc d "donor_uuid" (some (generateUuid5 [s1, s2]))).lookup
          "center_name" = some (some s1) := by
        rw [lookup_setAssoc_ne _ _ (by decide)]
        exact hv1
      have e2 : (setAssoc d "donor_uuid" (some (generateUuid5 [s1, s2]))).lookup
          "submitter_donor_id" = some (some s2) := by
        rw [lookup_setAssoc_ne _ _ (by decide)]
        exact hv2
      have e3 : (setAssoc d "donor_uuid" (some (generateUuid5 [s1, s2]))).lookup
          "submitter_specimen_id" = some none := by
        rw [lookup_setAssoc_ne _ _ (by decide)]
        exact hv3
      refine ⟨setAssoc d "donor_uuid" (some (generateUuid5 [s1, s2])),
        "submitter_specimen_id", ?_, by decide, e3⟩
      simp only [setUuids, uuidKeyFields, setUuidsLoop, collectKeyList, hv1, hv2, e1, e2, e3]
    rcases v4 with _ | s4
    · have e1 : (setAssoc d "donor_uuid" (some (generateUuid5 [s1, s2]))).lookup
          "center_name" = some (some s1) := by
        rw [lookup_setAssoc_ne _ _ (by decide)]
        exact hv1
      have e2 : (setAssoc d "donor_uuid" (some (generateUuid5 [s1, s2]))).lookup
          "submitter_donor_id" = some (some s2) := by
        rw [lookup_setAssoc_ne _ _ (by decide)]
        exact hv2
      have e3 : (setAssoc d "donor_uuid" (some (generateUuid5 [s1, s2]))).lookup
          "submitter_specimen_id" = some (some s3) := by
        rw [lookup_setAssoc_ne _ _ (by decide)]
        exact hv3
      have f1 : (setAssoc (setAssoc d "donor_uuid" (some (generateUuid5 [s1, s2])))
          "specimen_uuid" (some (generateUuid5 [s1, s2, s3]))).lookup "center_name" =
          some (some s1) := by
        rw [lookup_setAssoc_ne _ _ (by decide)]
        exact e1
      have f2 : (setAssoc (setAssoc d "donor_uuid" (some (generateUuid5 [s1, s2])))
          "specimen_uuid" (some (generateUuid5 [s1, s2, s3]))).lookup "submitter_donor_id" =
          some (some s2) := by
        rw [lookup_setAssoc_ne _ _ (by decide)]
        exact e2
      have f3 : (setAssoc (setAssoc d "donor_uuid" (some (generateUuid5 [s1, s2])))
          "specimen_uuid" (some (generateUuid5 [s1, s2, s3]))).lookup
          "submitter_specimen_id" = some (some s3) := by
        rw [lookup_setAssoc_ne _ _ (by decide)]
        exact e3
      have f4 : (setAssoc (setAssoc d "donor_uuid" (some (generateUuid5 [s1, s2])))
          "specimen_uuid" (some (generateUuid5 [s1, s2, s3]))).lookup
          "submitter_sample_id" = some none := by
        rw [lookup_setAssoc_ne _ _ (by decide), lookup_setAssoc_ne _ _ (by decide)]
        exact hv4
      refine ⟨setAssoc (setAssoc d "donor_uuid" (some (generateUuid5 [s1, s2])))
        "specimen_uuid" (some (generateUuid5 [s1, s2, s3])),
        "submitter_sample_id", ?_, by decide, f4⟩
      simp only [setUuids, uuidKeyFields, setUuidsLoop, collectKeyList, hv1, hv2, e1, e2, e3,
        f1, f2, f3, f4]
    · -- the first four business keys are non-null: the three uuid tuples succeed
      have e1 : (setAssoc d "donor_uuid" (some (generateUuid5 [s1, s2]))).lookup
          "center_name" = some (some s1) := by
        rw [lookup_setAssoc_ne _ _ (by decide)]
        exact hv1
      have e2 : (setAssoc d "donor_uuid" (some (generateUuid5 [s1, s2]))).lookup
          "submitter_donor_id" = some (some s2) := by
        rw [lookup_setAssoc_ne _ _ (by decide)]
        exact hv2
      have e3 : (setAssoc d "donor_uuid" (some (generateUuid5 [s1, s2]))).lookup
          "submitter_specimen_id" = some (some s3) := by
        rw [lookup_setAssoc_ne _ _ (by decide)]
        exact hv3
      have f1 : (setAssoc (setAssoc d "donor_uuid" (some (generateUuid5 [s1, s2])))
          "specimen_uuid" (some (generateUuid5 [s1, s2, s3]))).lookup "center_name" =
          some (some s1) := by
        rw [lookup_setAssoc_ne _ _ (by decide)]
        exact e1
      have f2 : (setAssoc (setAssoc d "donor_uuid" (some (generateUuid5 [s1, s2])))
          "specimen_uuid" (some (generateUuid5 [s1, s2, s3]))).lookup "submitter_donor_id" =
          some (some s2) := by
        rw [lookup_setAssoc_ne _ _ (by decide)]
        exact e2
      have f3 : (setAssoc (setAssoc d "donor_uuid" (some (generateUuid5 [s1, s2])))
          "specimen_uuid" (some (generateUuid5 [s1, s2, s3]))).lookup
          "submitter_specimen_id" = some (some s3) := by
        rw [lookup_setAssoc_ne _ _ (by decide)]
        exact e3
      have f4 : (setAssoc (setAssoc d "donor_uuid" (some (generateUuid5 [s1, s2])))
          "specimen_uuid" (some (generateUuid5 [s1, s2, s3]))).lookup
          "submitter_sample_id" = some (some s4) := by
        rw [lookup_setAssoc_ne _ _ (by decide), lookup_setAssoc_ne _ _ (by decide)]
        exact hv4
      have g0 : (setAssoc (setAssoc (setAssoc d "donor_uuid" (some (generateUuid5 [s1, s2])))
          "specimen_uuid" (some (generateUuid5 [s1, s2, s3])))
          "sample_uuid" (some (generateUuid5 [s1, s2, s3, s4]))).lookup "sample_uuid" =
          some (some (generateUuid5 [s1, s2, s3, s4])) :=
        lookup_setAssoc_self _ _ _
      have g5 : (setAssoc (setAssoc (setAssoc d "donor_uuid" (some (generateUuid5 [s1, s2])))
          "specimen_uuid" (some (generateUuid5 [s1, s2, s3])))
          "sample_uuid" (some (generateUuid5 [s1, s2, s3, s4]))).lookup "workflow_name" =
          some v5 := by
        rw [lookup_setAssoc_ne _ _ (by decide), lookup_setAssoc_ne _ _ (by decide),
          lookup_setAssoc_ne _ _ (by decide)]
        exact hv5
      have g6 : (setAssoc (setAssoc (setAssoc d "donor_uuid" (some (generateUuid5 [s1, s2])))
          "specimen_uuid" (some (generateUuid5 [s1, s2, s3])))
          "sample_uuid" (some (generateUuid5 [s1, s2, s3, s4]))).lookup "workflow_version" =
          some v6 := by
        rw [lookup_setAssoc_ne _ _ (by decide), lookup_setAssoc_ne _ _ (by decide),
          lookup_setAssoc_ne _ _ (by decide)]
        exact hv6
      have hsl : setUuidsLoop d uuidKeyFields = Except.ok
          (setAssoc (setAssoc (setAssoc d "donor_uuid" (some (generateUuid5 [s1, s2])))
            "specimen_uuid" (some (generateUuid5 [s1, s2, s3])))
            "sample_uuid" (some (generateUuid5 [s1, s2, s3, s4])), false) := by
        simp only [uuidKeyFields, setUuidsLoop, collectKeyList, hv1, hv2, e1, e2, e3,
          f1, f2, f3, f4]
      rcases v5 with _ | s5
      · refine ⟨_, "workflow_name", ?_, by decide, g5⟩
        rw [setUuids, hsl]
        simp only [setUuidsWorkflowPart, collectKeyList, g0, g5]
      rcases v6 with _ | s6
      · refine ⟨_, "workflow_version", ?_, by decide, g6⟩
        rw [setUuids, hsl]
        simp only [setUuidsWorkflowPart, collectKeyList, g0, g5, g6]
      · -- all six non-null: contradicts hnull
        obtain ⟨f, hfmem, hfnull⟩ := hnull
        have hcases : f = "center_name" ∨ f = "submitter_donor_id" ∨
            f = "submitter_specimen_id" ∨ f = "submitter_sample_id" ∨
            f = "workflow_name" ∨ f = "workflow_version" := by
          simpa [inputMetadataSchema] using hfmem
        rcases hcases with rfl | rfl | rfl | rfl | rfl | rfl
        · exact absurd (hv1.symm.trans hfnull) (by simp)
        · exact absurd (hv2.symm.trans hfnull) (by simp)
        · exact absurd (hv3.symm.trans hfnull) (by simp)
        · exact absurd (hv4.symm.trans hfnull) (by simp)
        · exact absurd (hv5.symm.trans hfnull) (by simp)
        · exact absurd (hv6.symm.trans hfnull) (by simp)
  obtain ⟨d2, f0, hs, hf0, hn⟩ := main
  have hg := getDataObj_invalid d d2 f0 hs hf0 hn
  refine ⟨hg, ?_⟩
  rw [processBatch, hg]

/-- Witness for the amended C6 at a concrete record with a null center_name. -/
theorem C6_witness :
    ((∀ f ∈ inputMetadataSchema.required, (recordNullField.lookup f).isSome) ∧
      ∃ f ∈ inputMetadataSchema.required, recordNullField.lookup f = some none) ∧
    (getDataObj recordNullField inputMetadataSchema = Except.ok none ∧
      processBatch inputMetadataSchema (recordNullField :: [recordComplete]) =
        processBatch inputMetadataSchema [recordComplete]) := by
  refine ⟨⟨by decide, ⟨"center_name", by decide, by decide⟩⟩, ?_⟩
  exact C6_null_business_key_skipped recordNullField [recordComplete] (by decide)
    ⟨"center_name", by decide, by decide⟩


/- ### Claim theorem: assembly grouping -/

theorem skeletonBundle_eq (r : FlatRecord) (now : String) :
    skeletonBundle r now = skeletonWithOutputs r now [] :=
  rfl

theorem addFileToBundle_skeleton (r : FlatRecord) (now : String) (outs : List FileInfo)
    (fi : FileInfo) :
    addFileToBundle (skeletonWithOutputs r now outs) fi =
      skeletonWithOutputs r now (outs ++ [fi]) :=
  rfl

theorem withOutputs_skeleton (r : FlatRecord) (now : String) :
    ∀ (fis : List FileInfo) (outs : List FileInfo),
      withOutputs (skeletonWithOutputs r now outs) fis =
        skeletonWithOutputs r now (outs ++ fis) := by
  intro fis
  induction fis with
  | nil =>
    intro outs
    simp [withOutputs]
  | cons fi rest ih =>
    intro outs
    rw [withOutputs, List.foldl_cons, addFileToBundle_skeleton]
    rw [show List.foldl addFileToBundle (skeletonWithOutputs r now (outs ++ [fi])) rest =
      withOutputs (skeletonWithOutputs r now (outs ++ [fi])) rest from rfl]
    rw [ih (outs ++ [fi]), List.append_assoc]
    rfl

theorem withOutputs_cons (b : Bundle) (fi : FileInfo) (fis : List FileInfo) :
    withOutputs b (fi :: fis) = withOutputs (addFileToBundle b fi) fis :=
  rfl

theorem outputsFor_cons_pos (fsize : String → Nat) (fsha : String → String)
    (r : FlatRecord) (rest : List FlatRecord) {u : String} (h : r.workflow_uuid = u) :
    outputsFor fsize fsha (r :: rest) u =
      mkFileInfo fsize fsha r :: outputsFor fsize fsha rest u := by
  rw [outputsFor, outputsFor, List.filter_cons_of_pos (by simp [h]), List.map_cons]

theorem outputsFor_cons_neg (fsize : String → Nat) (fsha : String → String)
    (r : FlatRecord) (rest : List FlatRecord) {u : String} (h : r.workflow_uuid ≠ u) :
    outputsFor fsize fsha (r :: rest) u = outputsFor fsize fsha rest u := by
  rw [outputsFor, outputsFor, List.filter_cons_of_neg (by simp [h])]

/-- Lookup characterization of the assembler fold: a key already mapped receives the
file descriptors of the matching records, and a fresh key receives the skeleton of
its first record with those descriptors. -/
theorem gwo_lookup (fsize : String → Nat) (fsha : String → String) (now : String) :
    ∀ (rs : List FlatRecord) (m : List (String × Bundle)) (u : String),
      (getWorkflowObjects fsize fsha now rs m).lookup u =
        match m.lookup u with
        | some b => some (withOutputs b (outputsFor fsize fsha rs u))
        | none =>
          (rs.find? (fun r => r.workflow_uuid == u)).map
            (fun r => withOutputs (skeletonBundle r now) (outputsFor fsize fsha rs u)) := by
  intro rs
  induction rs with
  | nil =>
    intro m u
    rw [getWorkflowObjects]
    rcases m.lookup u with _ | b
    · rfl
    · rfl
  | cons r rest ih =>
    intro m u
    rw [getWorkflowObjects]
    by_cases hu : r.workflow_uuid = u
    · rcases hm : m.lookup u with _ | b
      · have hm' : (m.lookup r.workflow_uuid).isSome = false := by
          rw [hu, hm]
          rfl
        rw [if_neg (by rw [hm']; exact Bool.false_ne_true)]
        rw [ih _ u]
        have h1 : (updateAssoc (m ++ [(r.workflow_uuid, skeletonBundle r now)]) r.workflow_uuid
            (fun b => addFileToBundle b (mkFileInfo fsize fsha r))).lookup u =
            some (addFileToBundle (skeletonBundle r now) (mkFileInfo fsize fsha r)) := by
          rw [← hu, lookup_updateAssoc_self,
            lookup_append_of_none (by rw [hu]; exact hm), lookup_cons_self]
          rfl
        rw [h1]
        rw [List.find?_cons_of_pos _ (by simp [hu])]
        rw [outputsFor_cons_pos _ _ _ _ hu]
        rfl
      · have hm' : (m.lookup r.workflow_uuid).isSome = true := by
          rw [hu, hm]
          rfl
        rw [if_pos hm']
        rw [ih _ u]
        have h1 : (updateAssoc m r.workflow_uuid
            (fun b => addFileToBundle b (mkFileInfo fsize fsha r))).lookup u =
            some (addFileToBundle b (mkFileInfo fsize fsha r)) := by
          rw [← hu, lookup_updateAssoc_self, hu, hm]
          rfl
        rw [h1, outputsFor_cons_pos _ _ _ _ hu]
        rfl
    · have hmain : ∀ m1 : List (String × Bundle),
          (updateAssoc m1 r.workflow_uuid
            (fun b => addFileToBundle b (mkFileInfo fsize fsha r))).lookup u = m1.lookup u :=
        fun m1 => lookup_updateAssoc_ne m1 _ (fun hh => hu hh.symm)
      by_cases hm : (m.lookup r.workflow_uuid).isSome
      · rw [if_pos hm, ih _ u, hmain m]
        rw [outputsFor_cons_neg _ _ _ _ hu, List.find?_cons_of_neg _ (by simp [hu])]
      · rw [if_neg hm, ih _ u, hmain _]
        have h2 : (m ++ [(r.workflow_uuid, skeletonBundle r now)]).lookup u = m.lookup u := by
          rcases hmk : m.lookup u with _ | w
          · rw [lookup_append_of_none hmk, lookup_cons_ne _ _ (fun hh => hu hh.symm)]
            rfl
          · exact lookup_append_of_some hmk _
        rw [h2, outputsFor_cons_neg _ _ _ _ hu, List.find?_cons_of_neg _ (by simp [hu])]


/-- Keys of the assembler output: the keys already present followed by the first
occurrences of the new workflow identities, in input order. -/
theorem gwo_keys (fsize : String → Nat) (fsha : String → String) (now : String) :
    ∀ (rs : List FlatRecord) (m : List (String × Bundle)),
      (getWorkflowObjects fsize fsha now rs m).map Prod.fst =
        m.map Prod.fst ++ newKeys (m.map Prod.fst) (rs.map (fun r => r.workflow_uuid)) := by
  intro rs
  induction rs with
  | nil =>
    intro m
    rw [getWorkflowObjects, List.map_nil, newKeys, List.append_nil]
  | cons r rest ih =>
    intro m
    rw [getWorkflowObjects, List.map_cons]
    by_cases hm : (m.lookup r.workflow_uuid).isSome
    · rw [if_pos hm, ih _, mapfst_updateAssoc]
      have hmem : r.workflow_uuid ∈ m.map Prod.fst := by
        by_contra hcon
        rw [(lookup_eq_none_iff_notmem m _).mpr hcon] at hm
        simp at hm
      rw [newKeys, if_pos hmem]
    · have hnot : r.workflow_uuid ∉ m.map Prod.fst :=
        (lookup_eq_none_iff_notmem m _).mp (Option.not_isSome_iff_eq_none.mp hm)
      rw [if_neg hm, ih _, mapfst_updateAssoc, List.map_append, newKeys, if_neg hnot,
        List.append_assoc]
      rfl

/-- The first-occurrence list contains no element of the seen set and no
duplicates. -/
theorem newKeys_spec :
    ∀ (l seen : List String), (∀ x ∈ newKeys seen l, x ∉ seen) ∧ (newKeys seen l).Nodup := by
  intro l
  induction l with
  | nil =>
    intro seen
    exact ⟨by simp [newKeys], by simp [newKeys]⟩
  | cons x xs ih =>
    intro seen
    by_cases hx : x ∈ seen
    · rw [newKeys, if_pos hx]
      exact ih seen
    · rw [newKeys, if_neg hx]
      obtain ⟨h1, h2⟩ := ih (seen ++ [x])
      constructor
      · intro y hy
        rcases List.mem_cons.mp hy with rfl | hy2
        · exact hx
        · intro hyseen
          exact (h1 y hy2) (List.mem_append_left _ hyseen)
      · rw [List.nodup_cons]
        refine ⟨?_, h2⟩
        intro hxin
        exact (h1 x hxin) (List.mem_append_right _ (by simp))

theorem map_withOutputs_skeleton (o : Option FlatRecord) (now : String)
    (outs : List FileInfo) :
    o.map (fun r => withOutputs (skeletonBundle r now) outs) =
      o.map (fun r => skeletonWithOutputs r now outs) := by
  rcases o with _ | r0
  · rfl
  · simp only [Option.map_some']
    rw [skeletonBundle_eq, withOutputs_skeleton, List.nil_append]

/-- C7.  Bundle assembly produces exactly one bundle per distinct workflow
identity, keyed by the first occurrences of the workflow_uuid values in input
order without duplicates; the bundle under each identity is the skeleton of the
first record seen with it (schema_version 0.0.3, one specimen, one sample, one
analysis) whose workflow_outputs hold one file descriptor per matching input
record, in input row order. -/
theorem C7_assembly_grouping (fsize : String → Nat) (fsha : String → String) (now : String)
    (rs : List FlatRecord) :
    ((getWorkflowObjects fsize fsha now rs []).map Prod.fst =
        newKeys [] (rs.map (fun r => r.workflow_uuid)) ∧
      ((getWorkflowObjects fsize fsha now rs []).map Prod.fst).Nodup) ∧
    (∀ u, (getWorkflowObjects fsize fsha now rs []).lookup u =
      (rs.find? (fun r => r.workflow_uuid == u)).map
        (fun r => skeletonWithOutputs r now (outputsFor fsize fsha rs u))) ∧
    (∀ (r : FlatRecord) (outs : List FileInfo),
      (skeletonWithOutputs r now outs).schema_version = "0.0.3" ∧
      (skeletonWithOutputs r now outs).specimen.length = 1 ∧
      ∀ sp ∈ (skeletonWithOutputs r now outs).specimen, sp.samples.length = 1 ∧
        ∀ sa ∈ sp.samples, sa.analysis.length = 1 ∧
          ∀ an ∈ sa.analysis, an.workflow_outputs = outs) := by
  refine ⟨⟨?_, ?_⟩, ?_, ?_⟩
  · rw [gwo_keys fsize fsha now rs []]
    rfl
  · rw [gwo_keys fsize fsha now rs []]
    have hnd := (newKeys_spec (rs.map (fun r => r.workflow_uuid)) []).2
    simpa using hnd
  · intro u
    rw [gwo_lookup fsize fsha now rs [] u]
    show (rs.find? (fun r => r.workflow_uuid == u)).map
      (fun r => withOutputs (skeletonBundle r now) (outputsFor fsize fsha rs u)) = _
    exact map_withOutputs_skeleton _ now _
  · intro r outs
    refine ⟨rfl, rfl, ?_⟩
    intro sp hsp
    simp only [skeletonWithOutputs, List.mem_singleton] at hsp
    subst hsp
    refine ⟨rfl, ?_⟩
    intro sa hsa
    simp only [List.mem_singleton] at hsa
    subst hsa
    refine ⟨rfl, ?_⟩
    intro an han
    simp only [List.mem_singleton] at han
    subst han
    rfl


/-- Witness for C7 at a single concrete record and constant filesystem oracles. -/
theorem C7_witness :
    (getWorkflowObjects (fun _ => 3) (fun _ => "sha1") "t" [flatRecordFixture] []).lookup
        flatRecordFixture.workflow_uuid =
      ([flatRecordFixture].find?
        (fun r => r.workflow_uuid == flatRecordFixture.workflow_uuid)).map
        (fun r => skeletonWithOutputs r "t"
          (outputsFor (fun _ => 3) (fun _ => "sha1") [flatRecordFixture]
            flatRecordFixture.workflow_uuid)) :=
  (C7_assembly_grouping (fun _ => 3) (fun _ => "sha1") "t" [flatRecordFixture]).2.1
    flatRecordFixture.workflow_uuid


end Spinnaker
